import Mathlib

/-! # winewayland.drv Vulkan glue (`dlls/winewayland.drv/vulkan.c`)

A shallow embedding of the surface-binding lifecycle of the Wayland Vulkan
driver: `wine_vk_surface_destroy`, `wayland_vulkan_surface_create`,
`wayland_vulkan_surface_destroy`, `wayland_vulkan_surface_presented` and
`WAYLAND_VulkanInit`.

The C code is sequential code over a heap; the embedding threads an explicit
`State` through every function.  Every call that leaves `vulkan.c` is recorded
in `State.log`, in program order, so that statements about which calls happen,
how often, and with which mutex held are statements about a list of events.

Pointers: a `struct wayland_surface *` is represented by the window handle
under which the window directory stores the record, a
`struct wayland_client_surface *` by a natural number indexing
`State.clients`, and a nullable pointer by an `Option`.

The C parameters `instance` and `private` are keywords of Lean and are called
`inst` and `priv` here.
-/

namespace WaylandVulkan

/-! ## Data model -/

abbrev HWND := Nat
abbrev VkInstance := Nat
abbrev VkSurfaceKHR := Nat
abbrev VkResult := Int

def VK_SUCCESS : VkResult := 0
def VK_ERROR_OUT_OF_HOST_MEMORY : VkResult := -1

def VK_STRUCTURE_TYPE_WAYLAND_SURFACE_CREATE_INFO_KHR : Nat := 1000006000

/-- A `struct wl_surface` proxy: the compositor surface object.  `id` names the
object, `user_data` is what `wl_surface_get_user_data` returns for it. -/
structure wl_surface where
  id : Nat
  user_data : HWND
  deriving DecidableEq, Repr

/-- The host structure filled in by `wayland_vulkan_surface_create`. -/
structure VkWaylandSurfaceCreateInfoKHR where
  sType : Nat
  pNext : Option Nat
  flags : Nat
  display : Nat
  surface : wl_surface
  deriving DecidableEq, Repr

/-- The `processing` member of `struct wayland_surface`: the configure request
being processed (`serial`, `processed`). -/
structure wayland_surface_config where
  serial : Nat
  processed : Bool
  deriving DecidableEq, Repr

/-- The members of `struct wayland_client_surface` used by `vulkan.c`: the
reference count (a `LONG` changed by interlocked increment and decrement; kept
as an unbounded integer, so a count may also go negative) and the compositor
object. -/
structure wayland_client_surface where
  ref : Int
  wl_surface : wl_surface
  deriving DecidableEq, Repr

/-- The members of `struct wayland_surface` used by `vulkan.c`: the surface that
is committed, the configure request, and the nullable `client` pointer.  The
`mutex` member is not stored: acquiring and releasing it are events of the log. -/
structure wayland_surface where
  wl_surface : Nat
  processing : wayland_surface_config
  client : Option Nat
  deriving DecidableEq, Repr

/-- Calls that leave `vulkan.c`, in the order they are made, together with the
store `wayland_surface->client = NULL` and the destruction of a compositor object
inside `wayland_client_surface_release`. -/
inductive Event where
  /-- The call `wayland_surface_lock_hwnd(hwnd)`; the record mutex is acquired iff `found`. -/
  | lock_hwnd (hwnd : HWND) (found : Bool)
  /-- The call `pthread_mutex_unlock(&wayland_surface->mutex)` on the record of `hwnd`. -/
  | mutex_unlock (hwnd : HWND)
  /-- The call `wayland_surface_get_client(wayland_surface)` on the record of `hwnd`. -/
  | get_client (hwnd : HWND)
  /-- The call through `pvkCreateWaylandSurfaceKHR` and the code it returned. -/
  | vkCreateWaylandSurfaceKHR (inst : VkInstance) (info : VkWaylandSurfaceCreateInfoKHR)
      (res : VkResult)
  /-- The call `wayland_client_surface_release(client)`: one decrement of `client->ref`. -/
  | client_surface_release (client : Nat)
  /-- The compositor object of `client` is destroyed (inside the release). -/
  | client_surface_destroyed (client : Nat)
  /-- The store `wayland_surface->client = NULL` on the record of `hwnd`. -/
  | clear_client (hwnd : HWND)
  /-- The call `wayland_surface_ensure_contents(wayland_surface)`. -/
  | ensure_contents (hwnd : HWND)
  /-- The call `wayland_surface_reconfigure(wayland_surface)` and its result. -/
  | reconfigure (hwnd : HWND) (ok : Bool)
  /-- The call `wl_surface_commit(wayland_surface->wl_surface)`. -/
  | wl_surface_commit (surface : Nat)
  deriving DecidableEq, Repr

/-- The heap as seen by `vulkan.c`. -/
structure State where
  /-- The window directory: the record of each window that has one. -/
  surfaces : HWND → Option wayland_surface
  /-- The client surfaces, by address. -/
  clients : Nat → wayland_client_surface
  /-- The address the next allocated client surface gets. -/
  next_client : Nat
  /-- Calls made so far, oldest first. -/
  log : List Event

/-- What the code cannot decide by itself: the GPU library, the compositor
connection and the window-management helpers whose bodies are in other files. -/
structure Env where
  /-- The display `process_wayland.wl_display`. -/
  wl_display : Nat
  /-- The function behind `pvkCreateWaylandSurfaceKHR`: from the instance, the
  create info and the old content of `*surface` to the result code and the new
  content of `*surface`. -/
  pvkCreateWaylandSurfaceKHR :
    VkInstance → VkWaylandSurfaceCreateInfoKHR → VkSurfaceKHR → VkResult × VkSurfaceKHR
  /-- The object id the compositor gives to the client surface that is being
  created at the given address, or `none` when creating it fails. -/
  new_client_surface : Nat → Option Nat
  /-- The effect of `wayland_surface_ensure_contents` on the record. -/
  ensure_contents : wayland_surface → wayland_surface
  /-- The result of `wayland_surface_reconfigure` and its effect on the record. -/
  reconfigure : wayland_surface → Bool × wayland_surface

def State.emit (s : State) (e : Event) : State :=
  { s with log := s.log ++ [e] }

def State.set_surface (s : State) (hwnd : HWND) (ws : wayland_surface) : State :=
  { s with surfaces := fun h => if h = hwnd then some ws else s.surfaces h }

def State.set_client (s : State) (client : Nat) (c : wayland_client_surface) : State :=
  { s with clients := fun p => if p = client then c else s.clients p }

/-! ## Helpers whose bodies are outside `vulkan.c` -/

/-- Modelled from the spec: `wayland_surface_lock_hwnd` (the body is in the window
management code).  "Given a window handle, returns an exclusively-locked handle to
the window's compositor-surface record, or not found." -/
def wayland_surface_lock_hwnd (hwnd : HWND) (s : State) : Option HWND × State :=
  match s.surfaces hwnd with
  | some _ => (some hwnd, s.emit (.lock_hwnd hwnd true))
  | none => (none, s.emit (.lock_hwnd hwnd false))

/-- The statement `pthread_mutex_unlock(&wayland_surface->mutex)`. -/
def pthread_mutex_unlock (wayland_surface : HWND) (s : State) : State :=
  s.emit (.mutex_unlock wayland_surface)

/-- Modelled from the spec: `wayland_surface_get_client` (the body is in
`wayland_surface.c`).  "Obtain (creating if absent) the record's ClientSurfaceRef,
incrementing its reference count"; a client surface created here starts with
count 1 and its compositor object carries the window as user data.  The result
is NULL when the client surface cannot be created, which the caller tests. -/
def wayland_surface_get_client (env : Env) (wayland_surface : HWND) (s : State) :
    Option Nat × State :=
  let s := s.emit (.get_client wayland_surface)
  match s.surfaces wayland_surface with
  | none => (none, s)
  | some ws =>
    match ws.client with
    | some client =>
      let c := s.clients client
      (some client, s.set_client client { c with ref := c.ref + 1 })
    | none =>
      match env.new_client_surface s.next_client with
      | none => (none, s)
      | some id =>
        let client := s.next_client
        let s := s.set_client client { ref := 1, wl_surface := { id := id, user_data := wayland_surface } }
        let s := { s with next_client := client + 1 }
        (some client, s.set_surface wayland_surface { ws with client := some client })

/-- Modelled from the spec: `wayland_client_surface_release` (the body is in
`wayland_surface.c`).  "Decrement; destroy compositor object if count reaches
zero"; the result tells whether the object was destroyed. -/
def wayland_client_surface_release (client : Nat) (s : State) : Bool × State :=
  let s := s.emit (.client_surface_release client)
  let c := s.clients client
  let s := s.set_client client { c with ref := c.ref - 1 }
  if c.ref - 1 = 0 then (true, s.emit (.client_surface_destroyed client))
  else (false, s)

/-- The call `wayland_surface_ensure_contents(wayland_surface)`: the helper is
outside `vulkan.c`, its effect on the record is `env.ensure_contents`. -/
def wayland_surface_ensure_contents (env : Env) (wayland_surface : HWND) (s : State) : State :=
  let s := s.emit (.ensure_contents wayland_surface)
  match s.surfaces wayland_surface with
  | none => s
  | some ws => s.set_surface wayland_surface (env.ensure_contents ws)

/-- The call `wayland_surface_reconfigure(wayland_surface)`: the helper is outside
`vulkan.c`, its result and effect on the record are `env.reconfigure`. -/
def wayland_surface_reconfigure (env : Env) (wayland_surface : HWND) (s : State) :
    Bool × State :=
  match s.surfaces wayland_surface with
  | none => (false, s.emit (.reconfigure wayland_surface false))
  | some ws =>
    let r := env.reconfigure ws
    (r.1, (s.emit (.reconfigure wayland_surface r.1)).set_surface wayland_surface r.2)

/-- The libwayland accessor `wl_surface_get_user_data`. -/
def wl_surface_get_user_data (surface : wl_surface) : HWND :=
  surface.user_data

/-! ## `vulkan.c` -/

/-- The function `wine_vk_surface_get_hwnd`: the window stored as user data of the
client surface's compositor object. -/
def wine_vk_surface_get_hwnd (client : wayland_client_surface) : HWND :=
  wl_surface_get_user_data client.wl_surface

/-- The function `wine_vk_surface_destroy`.  The release is the left operand of
`&&` and is evaluated whether or not a record was found. -/
def wine_vk_surface_destroy (client : Nat) (s : State) : State :=
  let hwnd := wine_vk_surface_get_hwnd (s.clients client)
  let (wayland_surface, s) := wayland_surface_lock_hwnd hwnd s
  let (released, s) := wayland_client_surface_release client s
  let s :=
    match released, wayland_surface with
    | true, some ws =>
      match s.surfaces ws with
      | some r => (s.emit (.clear_client ws)).set_surface ws { r with client := none }
      | none => s.emit (.clear_client ws)
    | _, _ => s
  match wayland_surface with
  | some ws => pthread_mutex_unlock ws s
  | none => s

/-- The result of `wayland_vulkan_surface_create`: the returned code, the content
of `*surface` and of `*private` after the call, and the heap. -/
structure CreateResult where
  res : VkResult
  surface : VkSurfaceKHR
  priv : Option Nat
  state : State

/-- The function `wayland_vulkan_surface_create`; `surface` and `priv` are the
contents of `*surface` and `*private` before the call. -/
def wayland_vulkan_surface_create (env : Env) (hwnd : HWND) (inst : VkInstance)
    (surface : VkSurfaceKHR) (priv : Option Nat) (s : State) : CreateResult :=
  match wayland_surface_lock_hwnd hwnd s with
  | (none, s) => ⟨VK_ERROR_OUT_OF_HOST_MEMORY, surface, priv, s⟩
  | (some wayland_surface, s) =>
    let (client, s) := wayland_surface_get_client env wayland_surface s
    let s := pthread_mutex_unlock wayland_surface s
    match client with
    | none => ⟨VK_ERROR_OUT_OF_HOST_MEMORY, surface, priv, s⟩
    | some client =>
      let create_info_host : VkWaylandSurfaceCreateInfoKHR :=
        { sType := VK_STRUCTURE_TYPE_WAYLAND_SURFACE_CREATE_INFO_KHR
          pNext := none
          flags := 0
          display := env.wl_display
          surface := (s.clients client).wl_surface }
      let r := env.pvkCreateWaylandSurfaceKHR inst create_info_host surface
      let s := s.emit (.vkCreateWaylandSurfaceKHR inst create_info_host r.1)
      if r.1 ≠ VK_SUCCESS then
        ⟨r.1, r.2, priv, wine_vk_surface_destroy client s⟩
      else
        ⟨VK_SUCCESS, r.2, some client, s⟩

/-- The function `wayland_vulkan_surface_destroy`; `priv` is the client surface
stored in the binding. -/
def wayland_vulkan_surface_destroy (_hwnd : HWND) (priv : Nat) (s : State) : State :=
  wine_vk_surface_destroy priv s

/-- The function `wayland_vulkan_surface_presented`.  The operands of `&&` are
evaluated left to right, so `wayland_surface_reconfigure` is called only when
`processing.serial` is nonzero and `processing.processed` is set. -/
def wayland_vulkan_surface_presented (env : Env) (hwnd : HWND) (_result : VkResult)
    (s : State) : State :=
  match wayland_surface_lock_hwnd hwnd s with
  | (none, s) => s
  | (some wayland_surface, s) =>
    let s := wayland_surface_ensure_contents env wayland_surface s
    let processing : wayland_surface_config :=
      match s.surfaces wayland_surface with
      | some ws => ws.processing
      | none => ⟨0, false⟩
    let s :=
      if processing.serial ≠ 0 ∧ processing.processed = true then
        match wayland_surface_reconfigure env wayland_surface s with
        | (true, s) =>
          match s.surfaces wayland_surface with
          | some ws => s.emit (.wl_surface_commit ws.wl_surface)
          | none => s
        | (false, s) => s
      else s
    pthread_mutex_unlock wayland_surface s

/-! ## `WAYLAND_VulkanInit` (build with `SONAME_LIBVULKAN`) -/

abbrev UINT := Nat

def STATUS_SUCCESS : UINT := 0x00000000
def STATUS_INVALID_PARAMETER : UINT := 0xC000000D
def STATUS_PROCEDURE_NOT_FOUND : UINT := 0xC000007A

/-- The functions of `vulkan.c` that the driver table points to. -/
inductive DriverFn where
  | wayland_vulkan_surface_create
  | wayland_vulkan_surface_destroy
  | wayland_vulkan_surface_presented
  | wayland_vkGetPhysicalDeviceWin32PresentationSupportKHR
  | wayland_get_host_surface_extension
  deriving DecidableEq, Repr

/-- The members of `struct vulkan_driver_funcs` that `vulkan.c` fills in. -/
structure vulkan_driver_funcs where
  p_vulkan_surface_create : DriverFn
  p_vulkan_surface_destroy : DriverFn
  p_vulkan_surface_presented : DriverFn
  p_vkGetPhysicalDeviceWin32PresentationSupportKHR : DriverFn
  p_get_host_surface_extension : DriverFn
  deriving DecidableEq, Repr

def wayland_vulkan_driver_funcs : vulkan_driver_funcs :=
  { p_vulkan_surface_create := .wayland_vulkan_surface_create
    p_vulkan_surface_destroy := .wayland_vulkan_surface_destroy
    p_vulkan_surface_presented := .wayland_vulkan_surface_presented
    p_vkGetPhysicalDeviceWin32PresentationSupportKHR :=
      .wayland_vkGetPhysicalDeviceWin32PresentationSupportKHR
    p_get_host_surface_extension := .wayland_get_host_surface_extension }

/-- What `WAYLAND_VulkanInit` can write: the two static entry-point slots, the
caller's `*driver_funcs`, and (for the statements) the names looked up so far.
A function pointer is an address, NULL is `none`. -/
structure InitState where
  pvkCreateWaylandSurfaceKHR : Option Nat
  pvkGetPhysicalDeviceWaylandPresentationSupportKHR : Option Nat
  driver_funcs : Option vulkan_driver_funcs
  dlsym_calls : List String
  deriving DecidableEq, Repr

/-- The function `WAYLAND_VulkanInit`.  `WINE_VULKAN_DRIVER_VERSION` is a constant
of a header outside `vulkan.c` and is a parameter here; `dlsym` stands for
`dlsym(vulkan_handle, name)`.  `LOAD_FUNCPTR(f)` stores the looked-up address in
`p##f` and returns `STATUS_PROCEDURE_NOT_FOUND` when it is NULL. -/
def WAYLAND_VulkanInit (WINE_VULKAN_DRIVER_VERSION : UINT) (dlsym : String → Option Nat)
    (version : UINT) (s : InitState) : UINT × InitState :=
  if version ≠ WINE_VULKAN_DRIVER_VERSION then (STATUS_INVALID_PARAMETER, s)
  else
    let s := { s with
      pvkCreateWaylandSurfaceKHR := dlsym "vkCreateWaylandSurfaceKHR"
      dlsym_calls := s.dlsym_calls ++ ["vkCreateWaylandSurfaceKHR"] }
    if s.pvkCreateWaylandSurfaceKHR = none then (STATUS_PROCEDURE_NOT_FOUND, s)
    else
      let s := { s with
        pvkGetPhysicalDeviceWaylandPresentationSupportKHR :=
          dlsym "vkGetPhysicalDeviceWaylandPresentationSupportKHR"
        dlsym_calls := s.dlsym_calls ++ ["vkGetPhysicalDeviceWaylandPresentationSupportKHR"] }
      if s.pvkGetPhysicalDeviceWaylandPresentationSupportKHR = none then
        (STATUS_PROCEDURE_NOT_FOUND, s)
      else (STATUS_SUCCESS, { s with driver_funcs := some wayland_vulkan_driver_funcs })

/-! ## Reading the log -/

/-- The events logged between the state `s` and the later state `s2`. -/
def events_since (s2 s : State) : List Event :=
  s2.log.drop s.log.length

/-- The record mutexes the calling thread holds after one more event. -/
def held_step (held : List HWND) : Event → List HWND
  | .lock_hwnd hwnd true => hwnd :: held
  | .mutex_unlock hwnd => held.erase hwnd
  | _ => held

/-- The record mutexes held after the events `tr`, when `held` were held before. -/
def held_after (held : List HWND) : List Event → List HWND
  | [] => held
  | e :: tr => held_after (held_step held e) tr

/-- For every event of `tr` that satisfies `p`, in order, the record mutexes held
at the moment of that event (`held` being held before `tr`). -/
def held_at (p : Event → Bool) (held : List HWND) : List Event → List (List HWND)
  | [] => []
  | e :: tr => if p e then held :: held_at p (held_step held e) tr
               else held_at p (held_step held e) tr

def is_vkCreateWaylandSurfaceKHR : Event → Bool
  | .vkCreateWaylandSurfaceKHR _ _ _ => true
  | _ => false

def is_wl_surface_commit : Event → Bool
  | .wl_surface_commit _ => true
  | _ => false

def is_client_surface_destroyed : Event → Bool
  | .client_surface_destroyed _ => true
  | _ => false

def is_mutex_unlock : Event → Bool
  | .mutex_unlock _ => true
  | _ => false

def is_reconfigure : Event → Bool
  | .reconfigure _ _ => true
  | _ => false

def is_ensure_contents : Event → Bool
  | .ensure_contents _ => true
  | _ => false

/-- The calls that cross into the native GPU API or the compositor transport:
`pvkCreateWaylandSurfaceKHR`, `wl_surface_commit`, and the destruction of the
compositor object inside `wayland_client_surface_release`. -/
def is_foreign_call (e : Event) : Bool :=
  is_vkCreateWaylandSurfaceKHR e || is_wl_surface_commit e || is_client_surface_destroyed e

/-! ## Derived descriptions used in the statements -/

/-- The create info `wayland_vulkan_surface_create` fills in for the compositor
object `wl`. -/
def create_info_host (env : Env) (wl : wl_surface) : VkWaylandSurfaceCreateInfoKHR :=
  { sType := VK_STRUCTURE_TYPE_WAYLAND_SURFACE_CREATE_INFO_KHR
    pNext := none
    flags := 0
    display := env.wl_display
    surface := wl }

/-- The events of one `wine_vk_surface_destroy client` started in state `s`. -/
def destroy_events (client : Nat) (s : State) : List Event :=
  let hwnd := (s.clients client).wl_surface.user_data
  match s.surfaces hwnd with
  | some _ =>
    if (s.clients client).ref - 1 = 0 then
      [.lock_hwnd hwnd true, .client_surface_release client, .client_surface_destroyed client,
        .clear_client hwnd, .mutex_unlock hwnd]
    else [.lock_hwnd hwnd true, .client_surface_release client, .mutex_unlock hwnd]
  | none =>
    if (s.clients client).ref - 1 = 0 then
      [.lock_hwnd hwnd false, .client_surface_release client, .client_surface_destroyed client]
    else [.lock_hwnd hwnd false, .client_surface_release client]

/-! ## Concrete inputs -/

/-- A GPU library whose surface creation succeeds and returns the handle 77; the
compositor creates client surfaces (object 490 + address);
`wayland_surface_ensure_contents` leaves the record alone and
`wayland_surface_reconfigure` succeeds, consuming the request. -/
def env_ok : Env :=
  { wl_display := 1
    pvkCreateWaylandSurfaceKHR := fun _ _ _ => (VK_SUCCESS, 77)
    new_client_surface := fun client => some (490 + client)
    ensure_contents := fun ws => ws
    reconfigure := fun ws => (true, { ws with processing := ⟨0, false⟩ }) }

/-- As `env_ok`, but surface creation fails with `VK_ERROR_INITIALIZATION_FAILED`
(-3) and leaves `*surface` alone, and reconfiguring fails. -/
def env_gpu_fails : Env :=
  { wl_display := 1
    pvkCreateWaylandSurfaceKHR := fun _ _ old => (-3, old)
    new_client_surface := fun client => some (490 + client)
    ensure_contents := fun ws => ws
    reconfigure := fun ws => (false, ws) }

/-- Window 1 has a record without client surface and with a processed configure
request (serial 9); no other window has a record. -/
def state_w1 : State :=
  { surfaces := fun h => if h = 1 then some ⟨100, ⟨9, true⟩, none⟩ else none
    clients := fun _ => ⟨0, ⟨0, 0⟩⟩
    next_client := 10
    log := [] }

/-- The client surface at address 10 belongs to window 1 and has one reference;
window 1 has no record any more. -/
def state_window_gone : State :=
  { surfaces := fun _ => none
    clients := fun p => if p = 10 then ⟨1, ⟨500, 1⟩⟩ else ⟨0, ⟨0, 0⟩⟩
    next_client := 11
    log := [] }

/-- The client surface at address 10 was made for window 1 and has one reference;
the record of window 1 has meanwhile been given the client surface at address 20. -/
def state_record_recreated : State :=
  { surfaces := fun h => if h = 1 then some ⟨100, ⟨0, false⟩, some 20⟩ else none
    clients := fun p =>
      if p = 10 then ⟨1, ⟨500, 1⟩⟩ else if p = 20 then ⟨1, ⟨501, 1⟩⟩ else ⟨0, ⟨0, 0⟩⟩
    next_client := 21
    log := [] }

/-- The address book of a GPU library that exports both entry points. -/
def dlsym_both : String → Option Nat := fun name =>
  if name = "vkCreateWaylandSurfaceKHR" then some 4096
  else if name = "vkGetPhysicalDeviceWaylandPresentationSupportKHR" then some 8192
  else none

/-- Before `WAYLAND_VulkanInit`: no entry point resolved, no table handed out. -/
def init_state_empty : InitState :=
  { pvkCreateWaylandSurfaceKHR := none
    pvkGetPhysicalDeviceWaylandPresentationSupportKHR := none
    driver_funcs := none
    dlsym_calls := [] }

/-! ## Sequences of creations and destructions on one window -/

/-- One request of the GPU API consumer for the window: create a surface, or
destroy a binding (named by the `private` pointer `wayland_vulkan_surface_create`
returned for it). -/
inductive SurfaceOp where
  | create (inst : VkInstance)
  | destroy (priv : Nat)
  deriving DecidableEq, Repr

/-- A sequence of requests in progress: the heap, the `private` pointers of the
bindings alive, of every binding created so far and of every binding destroyed
so far, and whether every request so far was a successful creation or the
destruction of a binding alive at that moment. -/
structure Run where
  state : State
  live : List Nat
  created : List Nat
  destroyed : List Nat
  ok : Bool

/-- One request applied to a sequence in progress.  A creation that does not
return `VK_SUCCESS` and a destruction of a binding that is not alive switch `ok`
off. -/
def run_op (env : Env) (hwnd : HWND) (r : Run) : SurfaceOp → Run
  | .create inst =>
    let c := wayland_vulkan_surface_create env hwnd inst 0 none r.state
    match c.priv with
    | some p =>
      if c.res = VK_SUCCESS then
        { r with state := c.state, live := p :: r.live, created := p :: r.created }
      else { r with state := c.state, ok := false }
    | none => { r with state := c.state, ok := false }
  | .destroy p =>
    if p ∈ r.live then
      { r with
        state := wayland_vulkan_surface_destroy hwnd p r.state
        live := r.live.erase p
        destroyed := p :: r.destroyed }
    else { r with ok := false }

/-- The requests `ops` applied in order. -/
def run_ops (env : Env) (hwnd : HWND) (r : Run) (ops : List SurfaceOp) : Run :=
  ops.foldl (run_op env hwnd) r

/-- The start of a sequence in the heap `s`. -/
def Run.start (s : State) : Run :=
  { state := s, live := [], created := [], destroyed := [], ok := true }

/-- What holds of a sequence started in `s0` as long as it is `ok`. -/
structure RunInv (s0 : State) (hwnd : HWND) (r : Run) : Prop where
  log : ∃ tr, r.state.log = s0.log ++ tr ∧
    ∀ c, s0.next_client ≤ c → tr.count (Event.client_surface_destroyed c)
      = if c < r.state.next_client ∧ (r.state.clients c).ref = 0 then 1 else 0
  next : s0.next_client ≤ r.state.next_client
  record : ∃ ws, r.state.surfaces hwnd = some ws ∧
    ∀ c, ws.client = some c →
      s0.next_client ≤ c ∧ c < r.state.next_client ∧ 1 ≤ (r.state.clients c).ref
  clients : ∀ c, s0.next_client ≤ c → c < r.state.next_client →
    (r.state.clients c).wl_surface.user_data = hwnd
      ∧ (r.state.clients c).ref = (r.live.count c : Int)
  live : ∀ c ∈ r.live, s0.next_client ≤ c ∧ c < r.state.next_client
  counts : ∀ c, r.live.count c + r.destroyed.count c = r.created.count c
  created : ∀ c ∈ r.created, s0.next_client ≤ c ∧ c < r.state.next_client
/-! ## Basic facts -/

section basic

variable (s : State) (e : Event) (hwnd : HWND) (ws : wayland_surface) (client : Nat)
  (c : wayland_client_surface)

@[simp] theorem emit_log : (s.emit e).log = s.log ++ [e] := rfl
@[simp] theorem emit_surfaces : (s.emit e).surfaces = s.surfaces := rfl
@[simp] theorem emit_clients : (s.emit e).clients = s.clients := rfl
@[simp] theorem emit_next_client : (s.emit e).next_client = s.next_client := rfl
@[simp] theorem set_surface_log : (s.set_surface hwnd ws).log = s.log := rfl
@[simp] theorem set_surface_clients : (s.set_surface hwnd ws).clients = s.clients := rfl
@[simp] theorem set_surface_next_client :
    (s.set_surface hwnd ws).next_client = s.next_client := rfl
@[simp] theorem set_surface_surfaces (h : HWND) :
    (s.set_surface hwnd ws).surfaces h = if h = hwnd then some ws else s.surfaces h := rfl
@[simp] theorem set_client_log : (s.set_client client c).log = s.log := rfl
@[simp] theorem set_client_surfaces : (s.set_client client c).surfaces = s.surfaces := rfl
@[simp] theorem set_client_next_client :
    (s.set_client client c).next_client = s.next_client := rfl
@[simp] theorem set_client_clients (p : Nat) :
    (s.set_client client c).clients p = if p = client then c else s.clients p := rfl

end basic

/-! ## What `wine_vk_surface_destroy` does to the state -/

theorem destroy_log (client : Nat) (s : State) :
    (wine_vk_surface_destroy client s).log = s.log ++ destroy_events client s := by
  cases hs : s.surfaces (s.clients client).wl_surface.user_data <;>
  by_cases hz : (s.clients client).ref - 1 = 0 <;>
  simp [wine_vk_surface_destroy, wayland_surface_lock_hwnd, wine_vk_surface_get_hwnd,
    wl_surface_get_user_data, wayland_client_surface_release, pthread_mutex_unlock,
    destroy_events, hs, hz]

theorem destroy_clients (client : Nat) (s : State) (p : Nat) :
    (wine_vk_surface_destroy client s).clients p
      = if p = client then { s.clients client with ref := (s.clients client).ref - 1 }
        else s.clients p := by
  cases hs : s.surfaces (s.clients client).wl_surface.user_data <;>
  by_cases hz : (s.clients client).ref - 1 = 0 <;>
  simp [wine_vk_surface_destroy, wayland_surface_lock_hwnd, wine_vk_surface_get_hwnd,
    wl_surface_get_user_data, wayland_client_surface_release, pthread_mutex_unlock, hs, hz]

theorem destroy_next_client (client : Nat) (s : State) :
    (wine_vk_surface_destroy client s).next_client = s.next_client := by
  cases hs : s.surfaces (s.clients client).wl_surface.user_data <;>
  by_cases hz : (s.clients client).ref - 1 = 0 <;>
  simp [wine_vk_surface_destroy, wayland_surface_lock_hwnd, wine_vk_surface_get_hwnd,
    wl_surface_get_user_data, wayland_client_surface_release, pthread_mutex_unlock, hs, hz]

theorem destroy_surfaces (client : Nat) (s : State) (h : HWND) :
    (wine_vk_surface_destroy client s).surfaces h
      = if h = (s.clients client).wl_surface.user_data ∧ (s.clients client).ref - 1 = 0 then
          (s.surfaces h).map (fun r => { r with client := none })
        else s.surfaces h := by
  cases hs : s.surfaces (s.clients client).wl_surface.user_data <;>
  by_cases hz : (s.clients client).ref - 1 = 0 <;>
  by_cases hh : h = (s.clients client).wl_surface.user_data <;>
  simp [wine_vk_surface_destroy, wayland_surface_lock_hwnd, wine_vk_surface_get_hwnd,
    wl_surface_get_user_data, wayland_client_surface_release, pthread_mutex_unlock, hs, hz, hh]

/-! ## What `wayland_vulkan_surface_create` does to the state -/

theorem get_client_log (env : Env) (hwnd : HWND) (s : State) :
    (wayland_surface_get_client env hwnd s).2.log = s.log ++ [.get_client hwnd] := by
  unfold wayland_surface_get_client
  cases hs : s.surfaces hwnd with
  | none => simp [hs]
  | some ws =>
    cases hc : ws.client <;> cases hn : env.new_client_surface s.next_client <;> simp [hs, hc, hn]

theorem get_client_existing (env : Env) (hwnd : HWND) (s : State) (ws : wayland_surface)
    (c : Nat) (hs : s.surfaces hwnd = some ws) (hc : ws.client = some c) :
    (wayland_surface_get_client env hwnd s).1 = some c
      ∧ (wayland_surface_get_client env hwnd s).2.surfaces = s.surfaces
      ∧ (wayland_surface_get_client env hwnd s).2.next_client = s.next_client
      ∧ ∀ p, (wayland_surface_get_client env hwnd s).2.clients p
          = if p = c then { s.clients c with ref := (s.clients c).ref + 1 } else s.clients p := by
  simp [wayland_surface_get_client, hs, hc]

theorem get_client_new (env : Env) (hwnd : HWND) (s : State) (ws : wayland_surface)
    (id : Nat) (hs : s.surfaces hwnd = some ws) (hc : ws.client = none)
    (hn : env.new_client_surface s.next_client = some id) :
    (wayland_surface_get_client env hwnd s).1 = some s.next_client
      ∧ (∀ h, (wayland_surface_get_client env hwnd s).2.surfaces h
          = if h = hwnd then some { ws with client := some s.next_client } else s.surfaces h)
      ∧ (wayland_surface_get_client env hwnd s).2.next_client = s.next_client + 1
      ∧ ∀ p, (wayland_surface_get_client env hwnd s).2.clients p
          = if p = s.next_client then ⟨1, ⟨id, hwnd⟩⟩ else s.clients p := by
  simp [wayland_surface_get_client, hs, hc, hn, State.set_surface, State.set_client]

theorem get_client_fails (env : Env) (hwnd : HWND) (s : State) (ws : wayland_surface)
    (hs : s.surfaces hwnd = some ws) (hc : ws.client = none)
    (hn : env.new_client_surface s.next_client = none) :
    wayland_surface_get_client env hwnd s = (none, s.emit (.get_client hwnd)) := by
  simp [wayland_surface_get_client, hs, hc, hn]

theorem get_client_none_iff (env : Env) (hwnd : HWND) (s : State) (ws : wayland_surface)
    (hs : s.surfaces hwnd = some ws) :
    (wayland_surface_get_client env hwnd s).1 = none
      ↔ ws.client = none ∧ env.new_client_surface s.next_client = none := by
  cases hc : ws.client <;> cases hn : env.new_client_surface s.next_client <;>
    simp [wayland_surface_get_client, hs, hc, hn]

theorem create_not_found (env : Env) (hwnd : HWND) (inst : VkInstance)
    (surface : VkSurfaceKHR) (priv : Option Nat) (s : State)
    (hs : s.surfaces hwnd = none) :
    wayland_vulkan_surface_create env hwnd inst surface priv s
      = ⟨VK_ERROR_OUT_OF_HOST_MEMORY, surface, priv, s.emit (.lock_hwnd hwnd false)⟩ := by
  simp [wayland_vulkan_surface_create, wayland_surface_lock_hwnd, hs]

theorem create_no_client (env : Env) (hwnd : HWND) (inst : VkInstance)
    (surface : VkSurfaceKHR) (priv : Option Nat) (s s1 : State) (ws : wayland_surface)
    (hs : s.surfaces hwnd = some ws)
    (hg : wayland_surface_get_client env hwnd (s.emit (.lock_hwnd hwnd true)) = (none, s1)) :
    wayland_vulkan_surface_create env hwnd inst surface priv s
      = ⟨VK_ERROR_OUT_OF_HOST_MEMORY, surface, priv, s1.emit (.mutex_unlock hwnd)⟩ := by
  unfold wayland_vulkan_surface_create
  simp only [wayland_surface_lock_hwnd, hs, hg]
  rfl

theorem create_gpu_failed (env : Env) (hwnd : HWND) (inst : VkInstance)
    (surface : VkSurfaceKHR) (priv : Option Nat) (s s1 : State) (ws : wayland_surface) (c : Nat)
    (hs : s.surfaces hwnd = some ws)
    (hg : wayland_surface_get_client env hwnd (s.emit (.lock_hwnd hwnd true)) = (some c, s1))
    (hr : (env.pvkCreateWaylandSurfaceKHR inst (create_info_host env (s1.clients c).wl_surface)
      surface).1 ≠ VK_SUCCESS) :
    wayland_vulkan_surface_create env hwnd inst surface priv s
      = ⟨(env.pvkCreateWaylandSurfaceKHR inst (create_info_host env (s1.clients c).wl_surface)
            surface).1,
         (env.pvkCreateWaylandSurfaceKHR inst (create_info_host env (s1.clients c).wl_surface)
            surface).2,
         priv,
         wine_vk_surface_destroy c ((s1.emit (.mutex_unlock hwnd)).emit
          (.vkCreateWaylandSurfaceKHR inst (create_info_host env (s1.clients c).wl_surface)
            (env.pvkCreateWaylandSurfaceKHR inst (create_info_host env (s1.clients c).wl_surface)
              surface).1))⟩ := by
  unfold wayland_vulkan_surface_create
  simp only [wayland_surface_lock_hwnd, hs, hg]
  simp only [pthread_mutex_unlock, create_info_host, emit_clients] at hr ⊢
  rw [if_pos hr]

theorem create_gpu_ok (env : Env) (hwnd : HWND) (inst : VkInstance)
    (surface : VkSurfaceKHR) (priv : Option Nat) (s s1 : State) (ws : wayland_surface) (c : Nat)
    (hs : s.surfaces hwnd = some ws)
    (hg : wayland_surface_get_client env hwnd (s.emit (.lock_hwnd hwnd true)) = (some c, s1))
    (hr : (env.pvkCreateWaylandSurfaceKHR inst (create_info_host env (s1.clients c).wl_surface)
      surface).1 = VK_SUCCESS) :
    wayland_vulkan_surface_create env hwnd inst surface priv s
      = ⟨VK_SUCCESS,
         (env.pvkCreateWaylandSurfaceKHR inst (create_info_host env (s1.clients c).wl_surface)
            surface).2,
         some c,
         (s1.emit (.mutex_unlock hwnd)).emit
          (.vkCreateWaylandSurfaceKHR inst (create_info_host env (s1.clients c).wl_surface)
            VK_SUCCESS)⟩ := by
  unfold wayland_vulkan_surface_create
  simp only [wayland_surface_lock_hwnd, hs, hg]
  simp only [pthread_mutex_unlock, create_info_host, emit_clients] at hr ⊢
  rw [if_neg (by simp [hr]), hr]

theorem held_at_append (p : Event → Bool) (held : List HWND) (tr1 tr2 : List Event) :
    held_at p held (tr1 ++ tr2)
      = held_at p held tr1 ++ held_at p (held_after held tr1) tr2 := by
  induction tr1 generalizing held with
  | nil => rfl
  | cons e tr ih =>
    by_cases hp : p e = true <;> simp [held_at, held_after, hp, ih]

theorem held_after_append (held : List HWND) (tr1 tr2 : List Event) :
    held_after held (tr1 ++ tr2) = held_after (held_after held tr1) tr2 := by
  induction tr1 generalizing held with
  | nil => rfl
  | cons e tr ih => simp [held_after, ih]

theorem held_at_none (p : Event → Bool) (held : List HWND) (tr : List Event)
    (h : tr.all (fun e => !p e) = true) : held_at p held tr = [] := by
  induction tr generalizing held with
  | nil => rfl
  | cons e tr ih =>
    simp only [List.all_cons, Bool.and_eq_true, Bool.not_eq_eq_eq_not, Bool.not_true] at h
    simp only [held_at, h.1]
    exact ih _ h.2

theorem destroy_events_not_vk (client : Nat) (s : State) :
    (destroy_events client s).all (fun e => !is_vkCreateWaylandSurfaceKHR e) = true := by
  unfold destroy_events
  cases hs : s.surfaces (s.clients client).wl_surface.user_data <;>
  by_cases hz : (s.clients client).ref - 1 = 0 <;>
  simp only [hs, hz, if_true, if_false] <;> rfl

theorem destroy_events_count_release (client : Nat) (s : State) (p : Nat) :
    (destroy_events client s).count (Event.client_surface_release p)
      = if p = client then 1 else 0 := by
  unfold destroy_events
  rcases eq_or_ne p client with hp | hp
  · subst hp
    cases hs : s.surfaces (s.clients p).wl_surface.user_data <;>
    by_cases hz : (s.clients p).ref - 1 = 0 <;>
    simp [hs, hz, List.count_cons]
  · cases hs : s.surfaces (s.clients client).wl_surface.user_data <;>
    by_cases hz : (s.clients client).ref - 1 = 0 <;>
    simp [hs, hz, List.count_cons, hp, hp.symm]

theorem destroy_events_count_destroyed (client : Nat) (s : State) (p : Nat) :
    (destroy_events client s).count (Event.client_surface_destroyed p)
      = if p = client ∧ (s.clients client).ref - 1 = 0 then 1 else 0 := by
  unfold destroy_events
  rcases eq_or_ne p client with hp | hp
  · subst hp
    cases hs : s.surfaces (s.clients p).wl_surface.user_data <;>
    by_cases hz : (s.clients p).ref - 1 = 0 <;>
    simp [hs, hz, List.count_cons]
  · cases hs : s.surfaces (s.clients client).wl_surface.user_data <;>
    by_cases hz : (s.clients client).ref - 1 = 0 <;>
    simp [hs, hz, List.count_cons, hp, hp.symm]

/-- The shapes the event list of one `wayland_vulkan_surface_create` can have. -/
theorem create_events (env : Env) (hwnd : HWND) (inst : VkInstance)
    (surface : VkSurfaceKHR) (priv : Option Nat) (s : State) :
    events_since (wayland_vulkan_surface_create env hwnd inst surface priv s).state s
        = [Event.lock_hwnd hwnd false]
      ∨ events_since (wayland_vulkan_surface_create env hwnd inst surface priv s).state s
        = [Event.lock_hwnd hwnd true, Event.get_client hwnd, Event.mutex_unlock hwnd]
      ∨ (∃ info res,
          events_since (wayland_vulkan_surface_create env hwnd inst surface priv s).state s
            = [Event.lock_hwnd hwnd true, Event.get_client hwnd, Event.mutex_unlock hwnd,
                Event.vkCreateWaylandSurfaceKHR inst info res])
      ∨ (∃ info res c s2,
          events_since (wayland_vulkan_surface_create env hwnd inst surface priv s).state s
            = [Event.lock_hwnd hwnd true, Event.get_client hwnd, Event.mutex_unlock hwnd,
                Event.vkCreateWaylandSurfaceKHR inst info res] ++ destroy_events c s2) := by
  cases hs : s.surfaces hwnd with
  | none =>
    left
    simp [create_not_found env hwnd inst surface priv s hs, events_since]
  | some ws =>
    have hlog := get_client_log env hwnd (s.emit (.lock_hwnd hwnd true))
    rcases hg : wayland_surface_get_client env hwnd (s.emit (.lock_hwnd hwnd true))
      with ⟨_ | c, s1⟩
    · rw [hg] at hlog
      simp only [emit_log] at hlog
      right; left
      simp [create_no_client env hwnd inst surface priv s s1 ws hs hg, events_since, hlog]
    · rw [hg] at hlog
      simp only [emit_log] at hlog
      by_cases hr : (env.pvkCreateWaylandSurfaceKHR inst
          (create_info_host env (s1.clients c).wl_surface) surface).1 = VK_SUCCESS
      · right; right; left
        exact ⟨create_info_host env (s1.clients c).wl_surface, VK_SUCCESS, by
          simp [create_gpu_ok env hwnd inst surface priv s s1 ws c hs hg hr, events_since, hlog]⟩
      · right; right; right
        exact ⟨create_info_host env (s1.clients c).wl_surface,
          (env.pvkCreateWaylandSurfaceKHR inst
            (create_info_host env (s1.clients c).wl_surface) surface).1, c,
          (s1.emit (.mutex_unlock hwnd)).emit
            (.vkCreateWaylandSurfaceKHR inst (create_info_host env (s1.clients c).wl_surface)
              (env.pvkCreateWaylandSurfaceKHR inst
                (create_info_host env (s1.clients c).wl_surface) surface).1), by
          simp [create_gpu_failed env hwnd inst surface priv s s1 ws c hs hg hr, events_since,
            hlog, destroy_log]⟩

theorem destroy_events_held_after (client : Nat) (s : State) :
    held_after [] (destroy_events client s) = [] := by
  unfold destroy_events
  cases hs : s.surfaces (s.clients client).wl_surface.user_data <;>
  by_cases hz : (s.clients client).ref - 1 = 0 <;>
  simp [hs, hz, held_after, held_step]

theorem destroy_events_held_at_destroyed (client : Nat) (s : State) :
    held_at is_client_surface_destroyed [] (destroy_events client s)
      = if (s.clients client).ref - 1 = 0 then
          [if s.surfaces (s.clients client).wl_surface.user_data = none then []
            else [(s.clients client).wl_surface.user_data]]
        else [] := by
  unfold destroy_events
  cases hs : s.surfaces (s.clients client).wl_surface.user_data <;>
  by_cases hz : (s.clients client).ref - 1 = 0 <;>
  simp [hs, hz, held_at, held_step, is_client_surface_destroyed]

theorem presented_events (env : Env) (hwnd : HWND) (result : VkResult) (s : State) :
    events_since (wayland_vulkan_surface_presented env hwnd result s) s
        = [Event.lock_hwnd hwnd false]
      ∨ events_since (wayland_vulkan_surface_presented env hwnd result s) s
        = [Event.lock_hwnd hwnd true, Event.ensure_contents hwnd, Event.mutex_unlock hwnd]
      ∨ events_since (wayland_vulkan_surface_presented env hwnd result s) s
        = [Event.lock_hwnd hwnd true, Event.ensure_contents hwnd, Event.reconfigure hwnd false,
            Event.mutex_unlock hwnd]
      ∨ ∃ surf, events_since (wayland_vulkan_surface_presented env hwnd result s) s
        = [Event.lock_hwnd hwnd true, Event.ensure_contents hwnd, Event.reconfigure hwnd true,
            Event.wl_surface_commit surf, Event.mutex_unlock hwnd] := by
  cases hs : s.surfaces hwnd with
  | none =>
    simp [wayland_vulkan_surface_presented, wayland_surface_lock_hwnd, hs, events_since]
  | some ws =>
    by_cases h1 : (env.ensure_contents ws).processing.serial = 0
    · simp [wayland_vulkan_surface_presented, wayland_surface_lock_hwnd, hs, events_since,
        wayland_surface_ensure_contents, pthread_mutex_unlock, h1]
    · by_cases h2 : (env.ensure_contents ws).processing.processed = true
      · cases h3 : (env.reconfigure (env.ensure_contents ws)).1 <;>
        simp [wayland_vulkan_surface_presented, wayland_surface_lock_hwnd, hs, events_since,
          wayland_surface_ensure_contents, wayland_surface_reconfigure, pthread_mutex_unlock,
          h1, h2, h3]
      · simp [wayland_vulkan_surface_presented, wayland_surface_lock_hwnd, hs, events_since,
          wayland_surface_ensure_contents, pthread_mutex_unlock, h1, h2]
/-- What a successful `wayland_vulkan_surface_create` did: it either took one more
reference on the record's client surface or allocated a new one for the record. -/
theorem create_success_cases (env : Env) (hwnd : HWND) (inst : VkInstance)
    (surface : VkSurfaceKHR) (priv : Option Nat) (s : State)
    (hok : (wayland_vulkan_surface_create env hwnd inst surface priv s).res = VK_SUCCESS) :
    ∃ ws info, s.surfaces hwnd = some ws
      ∧ (wayland_vulkan_surface_create env hwnd inst surface priv s).state.log
          = s.log ++ [Event.lock_hwnd hwnd true, Event.get_client hwnd, Event.mutex_unlock hwnd,
              Event.vkCreateWaylandSurfaceKHR inst info VK_SUCCESS]
      ∧ ((∃ c, ws.client = some c
            ∧ (wayland_vulkan_surface_create env hwnd inst surface priv s).priv = some c
            ∧ (wayland_vulkan_surface_create env hwnd inst surface priv s).state.surfaces
                = s.surfaces
            ∧ (wayland_vulkan_surface_create env hwnd inst surface priv s).state.next_client
                = s.next_client
            ∧ ∀ p, (wayland_vulkan_surface_create env hwnd inst surface priv s).state.clients p
                = if p = c then { s.clients c with ref := (s.clients c).ref + 1 }
                  else s.clients p)
        ∨ (∃ id, ws.client = none
            ∧ (wayland_vulkan_surface_create env hwnd inst surface priv s).priv
                = some s.next_client
            ∧ (∀ h, (wayland_vulkan_surface_create env hwnd inst surface priv s).state.surfaces h
                = if h = hwnd then some { ws with client := some s.next_client }
                  else s.surfaces h)
            ∧ (wayland_vulkan_surface_create env hwnd inst surface priv s).state.next_client
                = s.next_client + 1
            ∧ ∀ p, (wayland_vulkan_surface_create env hwnd inst surface priv s).state.clients p
                = if p = s.next_client then ⟨1, ⟨id, hwnd⟩⟩ else s.clients p)) := by
  cases hs : s.surfaces hwnd with
  | none =>
    rw [create_not_found env hwnd inst surface priv s hs] at hok
    simp [VK_ERROR_OUT_OF_HOST_MEMORY, VK_SUCCESS] at hok
  | some ws =>
    have hlog := get_client_log env hwnd (s.emit (.lock_hwnd hwnd true))
    rcases hg : wayland_surface_get_client env hwnd (s.emit (.lock_hwnd hwnd true))
      with ⟨_ | c, s1⟩
    · rw [create_no_client env hwnd inst surface priv s s1 ws hs hg] at hok
      simp [VK_ERROR_OUT_OF_HOST_MEMORY, VK_SUCCESS] at hok
    · rw [hg] at hlog
      simp only [emit_log] at hlog
      by_cases hr : (env.pvkCreateWaylandSurfaceKHR inst
          (create_info_host env (s1.clients c).wl_surface) surface).1 = VK_SUCCESS
      · refine ⟨ws, create_info_host env (s1.clients c).wl_surface, rfl, ?_, ?_⟩
        · simp [create_gpu_ok env hwnd inst surface priv s s1 ws c hs hg hr, hlog]
        · rw [create_gpu_ok env hwnd inst surface priv s s1 ws c hs hg hr]
          cases hc : ws.client with
          | some c0 =>
            have hex := get_client_existing env hwnd (s.emit (.lock_hwnd hwnd true)) ws c0
              (by simpa using hs) hc
            rw [hg] at hex
            obtain ⟨hc1, hsu, hnx, hcl⟩ := hex
            simp only [Option.some.injEq] at hc1
            subst hc1
            left
            exact ⟨c, rfl, rfl, by simpa using hsu, by simpa using hnx, by simpa using hcl⟩
          | none =>
            cases hn : env.new_client_surface s.next_client with
            | none =>
              have := get_client_fails env hwnd (s.emit (.lock_hwnd hwnd true)) ws
                (by simpa using hs) hc hn
              rw [hg] at this
              simp at this
            | some id =>
              have hex := get_client_new env hwnd (s.emit (.lock_hwnd hwnd true)) ws id
                (by simpa using hs) hc hn
              rw [hg] at hex
              obtain ⟨hc1, hsu, hnx, hcl⟩ := hex
              simp only [Option.some.injEq, emit_next_client] at hc1
              subst hc1
              right
              exact ⟨id, rfl, rfl, by simpa using hsu, by simpa using hnx, by simpa using hcl⟩
      · rw [create_gpu_failed env hwnd inst surface priv s s1 ws c hs hg hr] at hok
        exact absurd hok hr
theorem run_op_ok (env : Env) (hwnd : HWND) (r : Run) (op : SurfaceOp)
    (h : (run_op env hwnd r op).ok = true) : r.ok = true := by
  cases op with
  | create inst =>
    simp only [run_op] at h
    split at h
    · split at h
      · exact h
      · simp at h
    · simp at h
  | destroy p =>
    simp only [run_op] at h
    split at h
    · exact h
    · simp at h

theorem run_ops_ok (env : Env) (hwnd : HWND) (ops : List SurfaceOp) (r : Run)
    (h : (run_ops env hwnd r ops).ok = true) : r.ok = true := by
  induction ops generalizing r with
  | nil => exact h
  | cons op ops ih =>
    exact run_op_ok env hwnd r op (ih (run_op env hwnd r op) h)

theorem run_inv_start (s0 : State) (hwnd : HWND) (ws : wayland_surface)
    (hs : s0.surfaces hwnd = some ws) (hc : ws.client = none) :
    RunInv s0 hwnd (Run.start s0) where
  log := ⟨[], by simp [Run.start], by
    intro c hc
    have : ¬ c < s0.next_client := by omega
    simp [Run.start, this]⟩
  next := Nat.le_refl _
  record := ⟨ws, hs, by simp [hc]⟩
  clients := by
    intro c h1 h2
    simp only [Run.start] at h2
    omega
  live := by simp [Run.start]
  counts := by simp [Run.start]
  created := by simp [Run.start]

theorem run_inv_create (env : Env) (hwnd : HWND) (s0 : State) (r : Run) (inst : VkInstance)
    (hinv : RunInv s0 hwnd r)
    (hok : (run_op env hwnd r (.create inst)).ok = true) :
    RunInv s0 hwnd (run_op env hwnd r (.create inst)) := by
  have hrok := run_op_ok env hwnd r _ hok
  simp only [run_op] at hok ⊢
  cases hp : (wayland_vulkan_surface_create env hwnd inst 0 none r.state).priv with
  | none => simp [hp, hrok] at hok
  | some p =>
    by_cases hres : (wayland_vulkan_surface_create env hwnd inst 0 none r.state).res = VK_SUCCESS
    · simp only [hp, hres, if_true]
      obtain ⟨ws, info, hs, hlog, hcase⟩ :=
        create_success_cases env hwnd inst 0 none r.state hres
      obtain ⟨tr, htr, hcount⟩ := hinv.log
      obtain ⟨ws0, hs0, hrec⟩ := hinv.record
      rw [hs] at hs0
      simp only [Option.some.injEq] at hs0
      subst hs0
      rcases hcase with ⟨c, hc, hpriv, hsu, hnx, hcl⟩ | ⟨id, hc, hpriv, hsu, hnx, hcl⟩
      · -- one more reference on the record's client surface
        rw [hp] at hpriv
        simp only [Option.some.injEq] at hpriv
        subst hpriv
        obtain ⟨hr1, hr2, hr3⟩ := hrec p hc
        refine ⟨⟨tr ++ _, by rw [hlog, htr, List.append_assoc], ?_⟩, ?_, ?_, ?_, ?_, ?_, ?_⟩
        · intro c hc0
          have := hcount c hc0
          by_cases hcp : c = p
          · subst hcp
            have h0 : ¬ (r.state.clients c).ref = 0 := by omega
            have h1 : ¬ (r.state.clients c).ref + 1 = 0 := by omega
            simpa [hnx, hcl, h0, h1, List.count_cons] using this
          · simpa [hnx, hcl, hcp, List.count_cons] using this
        · rw [hnx]; exact hinv.next
        · refine ⟨ws, by rw [hsu]; exact hs, ?_⟩
          intro c hcc
          rw [hc] at hcc
          simp only [Option.some.injEq] at hcc
          subst hcc
          simp only [hnx, hcl, if_true]
          exact ⟨hr1, hr2, by simp; omega⟩
        · intro c h1 h2
          rw [hnx] at h2
          obtain ⟨hu, hrf⟩ := hinv.clients c h1 h2
          by_cases hcp : c = p
          · subst hcp
            simp [hcl, hu, hrf]
          · simp [hcl, hcp, hu, hrf, List.count_cons, Ne.symm hcp]
        · intro c hcm
          rw [hnx]
          simp only [List.mem_cons] at hcm
          rcases hcm with h | h
          · subst h; exact ⟨hr1, hr2⟩
          · exact hinv.live c h
        · intro c
          have := hinv.counts c
          by_cases hcp : p = c <;> simp [List.count_cons, hcp] <;> omega
        · intro c hcm
          rw [hnx]
          simp only [List.mem_cons] at hcm
          rcases hcm with h | h
          · subst h; exact ⟨hr1, hr2⟩
          · exact hinv.created c h
      · -- a new client surface for the record
        rw [hp] at hpriv
        simp only [Option.some.injEq] at hpriv
        subst hpriv
        have hnl : r.state.next_client ∉ r.live := fun h => by
          have := (hinv.live _ h).2
          omega
        refine ⟨⟨tr ++ _, by rw [hlog, htr, List.append_assoc], ?_⟩, ?_, ?_, ?_, ?_, ?_, ?_⟩
        · intro c hc0
          have := hcount c hc0
          by_cases hcp : c = r.state.next_client
          · subst hcp
            simpa [hnx, hcl, List.count_cons] using this
          · have hlt : c < r.state.next_client + 1 ↔ c < r.state.next_client := by omega
            simpa [hnx, hcl, hcp, List.count_cons, hlt] using this
        · rw [hnx]; have := hinv.next; omega
        · refine ⟨{ ws with client := some r.state.next_client }, by rw [hsu]; simp, ?_⟩
          intro c hcc
          simp only [Option.some.injEq] at hcc
          subst hcc
          simp only [hnx, hcl, if_true]
          exact ⟨hinv.next, by omega, by simp⟩
        · intro c h1 h2
          rw [hnx] at h2
          by_cases hcp : c = r.state.next_client
          · subst hcp
            simp [hcl, List.count_eq_zero_of_not_mem hnl]
          · obtain ⟨hu, hrf⟩ := hinv.clients c h1 (by omega)
            simp [hcl, hcp, hu, hrf, List.count_cons, Ne.symm hcp]
        · intro c hcm
          rw [hnx]
          simp only [List.mem_cons] at hcm
          rcases hcm with h | h
          · subst h; exact ⟨hinv.next, by omega⟩
          · have := hinv.live c h
            exact ⟨this.1, by omega⟩
        · intro c
          have := hinv.counts c
          by_cases hcp : r.state.next_client = c <;> simp [List.count_cons, hcp] <;> omega
        · intro c hcm
          rw [hnx]
          simp only [List.mem_cons] at hcm
          rcases hcm with h | h
          · subst h; exact ⟨hinv.next, by omega⟩
          · have := hinv.created c h
            exact ⟨this.1, by omega⟩
    · simp [hp, hres] at hok

theorem run_inv_destroy (env : Env) (hwnd : HWND) (s0 : State) (r : Run) (p : Nat)
    (hinv : RunInv s0 hwnd r)
    (hok : (run_op env hwnd r (.destroy p)).ok = true) :
    RunInv s0 hwnd (run_op env hwnd r (.destroy p)) := by
  simp only [run_op] at hok ⊢
  by_cases hpl : p ∈ r.live
  · simp only [hpl, if_true, wayland_vulkan_surface_destroy]
    obtain ⟨tr, htr, hcount⟩ := hinv.log
    obtain ⟨ws, hs, hrec⟩ := hinv.record
    obtain ⟨hp1, hp2⟩ := hinv.live p hpl
    obtain ⟨hu, hrf⟩ := hinv.clients p hp1 hp2
    have hpos : 1 ≤ r.live.count p := List.count_pos_iff.mpr hpl
    refine ⟨⟨tr ++ destroy_events p r.state, by rw [destroy_log, htr, List.append_assoc], ?_⟩,
      ?_, ?_, ?_, ?_, ?_, ?_⟩
    · intro c hc0
      have := hcount c hc0
      rw [List.count_append, destroy_events_count_destroyed, this]
      simp only [destroy_next_client, destroy_clients]
      by_cases hcp : c = p
      · subst hcp
        have h0 : ¬ (r.state.clients c).ref = 0 := by omega
        by_cases hz : (r.state.clients c).ref - 1 = 0 <;> simp [h0, hz, hp2]
      · simp [hcp]
    · rw [destroy_next_client]; exact hinv.next
    · rw [destroy_surfaces, hu]
      by_cases hz : (r.state.clients p).ref - 1 = 0
      · refine ⟨{ ws with client := none }, by simp [hz, hs], by simp⟩
      · refine ⟨ws, by simp [hz, hs], ?_⟩
        intro c hcc
        obtain ⟨h1, h2, h3⟩ := hrec c hcc
        refine ⟨h1, by rw [destroy_next_client]; exact h2, ?_⟩
        rw [destroy_clients]
        by_cases hcp : c = p
        · subst hcp
          simp only [if_true]
          omega
        · simpa [hcp] using h3
    · intro c h1 h2
      rw [destroy_next_client] at h2
      obtain ⟨hu2, hrf2⟩ := hinv.clients c h1 h2
      rw [destroy_clients]
      by_cases hcp : c = p
      · subst hcp
        simp only [if_true, List.count_erase_self]
        refine ⟨hu2, ?_⟩
        omega
      · simp [hcp, hu2, hrf2, List.count_erase_of_ne hcp]
    · intro c hcm
      rw [destroy_next_client]
      exact hinv.live c (List.mem_of_mem_erase hcm)
    · intro c
      have := hinv.counts c
      by_cases hcp : c = p
      · subst hcp
        simp only [List.count_erase_self, List.count_cons_self]
        omega
      · have hpc : ¬ p = c := fun h => hcp h.symm
        simpa [List.count_erase_of_ne hcp, List.count_cons, hpc] using this
    · intro c hcm
      rw [destroy_next_client]
      exact hinv.created c hcm
  · simp [hpl] at hok

theorem run_inv_ops (env : Env) (hwnd : HWND) (s0 : State) (ops : List SurfaceOp) (r : Run)
    (hinv : RunInv s0 hwnd r) (hok : (run_ops env hwnd r ops).ok = true) :
    RunInv s0 hwnd (run_ops env hwnd r ops) := by
  induction ops generalizing r with
  | nil => exact hinv
  | cons op ops ih =>
    have hok1 : (run_op env hwnd r op).ok = true := run_ops_ok env hwnd ops _ hok
    have hstep : RunInv s0 hwnd (run_op env hwnd r op) := by
      cases op with
      | create inst => exact run_inv_create env hwnd s0 r inst hinv hok1
      | destroy p => exact run_inv_destroy env hwnd s0 r p hinv hok1
    exact ih (run_op env hwnd r op) hstep hok
/-! ## Properties of the driver entry points -/

/-- C1: when `wayland_surface_lock_hwnd` finds no record for the window,
`wayland_vulkan_surface_create` returns `VK_ERROR_OUT_OF_HOST_MEMORY`, the only
call it makes is the failed lookup (so there is no call through
`pvkCreateWaylandSurfaceKHR`), `*private` and `*surface` keep their content, and
the records and client surfaces are untouched. -/
theorem create_without_record (env : Env) (hwnd : HWND) (inst : VkInstance)
    (surface : VkSurfaceKHR) (priv : Option Nat) (s : State)
    (hnone : (wayland_surface_lock_hwnd hwnd s).1 = none) :
    (wayland_vulkan_surface_create env hwnd inst surface priv s).res
        = VK_ERROR_OUT_OF_HOST_MEMORY
      ∧ (events_since (wayland_vulkan_surface_create env hwnd inst surface priv s).state s).filter
          is_vkCreateWaylandSurfaceKHR = []
      ∧ events_since (wayland_vulkan_surface_create env hwnd inst surface priv s).state s
          = [Event.lock_hwnd hwnd false]
      ∧ (wayland_vulkan_surface_create env hwnd inst surface priv s).priv = priv
      ∧ (wayland_vulkan_surface_create env hwnd inst surface priv s).surface = surface
      ∧ (wayland_vulkan_surface_create env hwnd inst surface priv s).state.surfaces = s.surfaces
      ∧ (wayland_vulkan_surface_create env hwnd inst surface priv s).state.clients = s.clients := by
  have hs : s.surfaces hwnd = none := by
    cases h : s.surfaces hwnd with
    | none => rfl
    | some ws => simp [wayland_surface_lock_hwnd, h] at hnone
  simp [wayland_vulkan_surface_create, wayland_surface_lock_hwnd, hs, events_since,
    is_vkCreateWaylandSurfaceKHR]

/-- Witness of C1: window 5 has no record in `state_w1`. -/
theorem create_without_record_witness :
    (wayland_surface_lock_hwnd 5 state_w1).1 = none
      ∧ (wayland_vulkan_surface_create env_ok 5 9 0 none state_w1).res
          = VK_ERROR_OUT_OF_HOST_MEMORY
      ∧ (wayland_vulkan_surface_create env_ok 5 9 0 none state_w1).priv = none :=
  ⟨rfl, (create_without_record env_ok 5 9 0 none state_w1 rfl).1,
    (create_without_record env_ok 5 9 0 none state_w1 rfl).2.2.2.1⟩

/-- C4: in every execution of `wayland_vulkan_surface_create`, whenever the call
through `pvkCreateWaylandSurfaceKHR` is made the calling thread holds no record
mutex: the `pthread_mutex_unlock` of the record found by
`wayland_surface_lock_hwnd` precedes it.  The call is reached (once, with no
mutex held) whenever the record exists and holds or can be given a client
surface. -/
theorem create_unlocks_before_gpu_call (env : Env) (hwnd : HWND) (inst : VkInstance)
    (surface : VkSurfaceKHR) (priv : Option Nat) (s : State) :
    (∀ held ∈ held_at is_vkCreateWaylandSurfaceKHR []
        (events_since (wayland_vulkan_surface_create env hwnd inst surface priv s).state s),
        held = [])
    ∧ ((∃ ws, s.surfaces hwnd = some ws ∧ (ws.client ≠ none ∨ env.new_client_surface s.next_client ≠ none)) →
        held_at is_vkCreateWaylandSurfaceKHR []
          (events_since (wayland_vulkan_surface_create env hwnd inst surface priv s).state s)
          = [[]]) := by
  cases hs : s.surfaces hwnd with
  | none =>
    simp [create_not_found env hwnd inst surface priv s hs, events_since, held_at,
      is_vkCreateWaylandSurfaceKHR]
  | some ws =>
    have hlog := get_client_log env hwnd (s.emit (.lock_hwnd hwnd true))
    have hnone := get_client_none_iff env hwnd (s.emit (.lock_hwnd hwnd true)) ws hs
    rcases hg : wayland_surface_get_client env hwnd (s.emit (.lock_hwnd hwnd true))
      with ⟨_ | c, s1⟩
    · rw [hg] at hlog hnone
      simp only [true_iff, emit_next_client] at hnone
      simp only [emit_log] at hlog
      simp [create_no_client env hwnd inst surface priv s s1 ws hs hg, events_since, hlog,
        held_at, is_vkCreateWaylandSurfaceKHR, held_step, hnone.1, hnone.2]
    · rw [hg] at hlog
      simp only [emit_log] at hlog
      by_cases hr : (env.pvkCreateWaylandSurfaceKHR inst
          (create_info_host env (s1.clients c).wl_surface) surface).1 = VK_SUCCESS
      · simp [create_gpu_ok env hwnd inst surface priv s s1 ws c hs hg hr, events_since, hlog,
          held_at, is_vkCreateWaylandSurfaceKHR, held_step]
      · simp [create_gpu_failed env hwnd inst surface priv s s1 ws c hs hg hr, events_since,
          hlog, destroy_log, held_at, is_vkCreateWaylandSurfaceKHR, held_step,
          held_at_none _ _ _ (destroy_events_not_vk _ _)]

/-- Witness of C4: creating a surface for window 1 of `state_w1` reaches the call
through `pvkCreateWaylandSurfaceKHR` once, with no record mutex held. -/
theorem create_unlocks_before_gpu_call_witness :
    held_at is_vkCreateWaylandSurfaceKHR []
      (events_since (wayland_vulkan_surface_create env_ok 1 7 0 none state_w1).state state_w1)
      = [[]] :=
  (create_unlocks_before_gpu_call env_ok 1 7 0 none state_w1).2
    ⟨⟨100, ⟨9, true⟩, none⟩, rfl, Or.inr (by decide)⟩

/-- C5: when the window stored in the binding's compositor object has no record
any more, `wayland_vulkan_surface_destroy` runs to its end, decrements the
reference count of the binding's client surface exactly once (destroying the
compositor object iff the count reaches zero), leaves every record and every
other client surface as it was, and makes no `pthread_mutex_unlock`. -/
theorem destroy_after_window_gone (hwnd : HWND) (client : Nat) (s : State)
    (hgone : (wayland_surface_lock_hwnd (wine_vk_surface_get_hwnd (s.clients client)) s).1
      = none) :
    events_since (wayland_vulkan_surface_destroy hwnd client s) s
        = [Event.lock_hwnd (wine_vk_surface_get_hwnd (s.clients client)) false,
            Event.client_surface_release client]
          ++ (if (s.clients client).ref - 1 = 0 then [Event.client_surface_destroyed client]
              else [])
      ∧ (events_since (wayland_vulkan_surface_destroy hwnd client s) s).count
          (Event.client_surface_release client) = 1
      ∧ ((wayland_vulkan_surface_destroy hwnd client s).clients client).ref
          = (s.clients client).ref - 1
      ∧ ((wayland_vulkan_surface_destroy hwnd client s).clients client).wl_surface
          = (s.clients client).wl_surface
      ∧ (∀ p, p ≠ client → (wayland_vulkan_surface_destroy hwnd client s).clients p = s.clients p)
      ∧ (∀ h, (wayland_vulkan_surface_destroy hwnd client s).surfaces h = s.surfaces h)
      ∧ (events_since (wayland_vulkan_surface_destroy hwnd client s) s).filter is_mutex_unlock
          = [] := by
  have hs : s.surfaces (s.clients client).wl_surface.user_data = none := by
    cases h : s.surfaces (s.clients client).wl_surface.user_data with
    | none => rfl
    | some ws =>
      simp [wayland_surface_lock_hwnd, wine_vk_surface_get_hwnd, wl_surface_get_user_data, h]
        at hgone
  have hev : events_since (wayland_vulkan_surface_destroy hwnd client s) s
      = [Event.lock_hwnd (wine_vk_surface_get_hwnd (s.clients client)) false,
            Event.client_surface_release client]
          ++ (if (s.clients client).ref - 1 = 0 then [Event.client_surface_destroyed client]
              else []) := by
    by_cases hz : (s.clients client).ref - 1 = 0 <;>
    simp [wayland_vulkan_surface_destroy, events_since, destroy_log, destroy_events, hs, hz,
      wine_vk_surface_get_hwnd, wl_surface_get_user_data]
  refine ⟨hev, ?_, ?_, ?_, ?_, ?_, ?_⟩
  · rw [hev]
    by_cases hz : (s.clients client).ref - 1 = 0 <;> simp [hz]
  · simp [wayland_vulkan_surface_destroy, destroy_clients]
  · simp [wayland_vulkan_surface_destroy, destroy_clients]
  · intro p hp
    simp [wayland_vulkan_surface_destroy, destroy_clients, hp]
  · intro h
    rw [wayland_vulkan_surface_destroy, destroy_surfaces]
    split
    · rename_i hh
      rw [hh.1, hs]
      rfl
    · rfl
  · rw [hev]
    by_cases hz : (s.clients client).ref - 1 = 0 <;> simp [hz, is_mutex_unlock]

/-- Witness of C5: the binding of address 10 in `state_window_gone`. -/
theorem destroy_after_window_gone_witness :
    (wayland_surface_lock_hwnd (wine_vk_surface_get_hwnd (state_window_gone.clients 10))
        state_window_gone).1 = none
      ∧ events_since (wayland_vulkan_surface_destroy 1 10 state_window_gone) state_window_gone
        = [Event.lock_hwnd 1 false, Event.client_surface_release 10,
            Event.client_surface_destroyed 10]
      ∧ ((wayland_vulkan_surface_destroy 1 10 state_window_gone).clients 10).ref = 0 :=
  ⟨rfl, (destroy_after_window_gone 1 10 state_window_gone rfl).1,
    (destroy_after_window_gone 1 10 state_window_gone rfl).2.2.1⟩
/-- C7: `wayland_vulkan_surface_presented` issues exactly one `wl_surface_commit`,
on the record's surface, iff the window's record is found, the configure request
the code reads (after `wayland_surface_ensure_contents` has run) has a nonzero
serial and `processed` set, and `wayland_surface_reconfigure` succeeds; otherwise
it issues none.  `wayland_surface_reconfigure` is called only when the serial is
nonzero and `processed` is set.  When the record is not found the only call is
the failed lookup: no ensure-contents, no reconfigure, no commit, no unlock, and
the heap is unchanged. -/
theorem presented_commits (env : Env) (hwnd : HWND) (result : VkResult) (s : State) :
    (((events_since (wayland_vulkan_surface_presented env hwnd result s) s).filter
          is_wl_surface_commit).length = 1
        ↔ ∃ ws, s.surfaces hwnd = some ws
            ∧ (env.ensure_contents ws).processing.serial ≠ 0
            ∧ (env.ensure_contents ws).processing.processed = true
            ∧ (env.reconfigure (env.ensure_contents ws)).1 = true)
      ∧ (((events_since (wayland_vulkan_surface_presented env hwnd result s) s).filter
          is_wl_surface_commit).length ≠ 1
        → (events_since (wayland_vulkan_surface_presented env hwnd result s) s).filter
          is_wl_surface_commit = [])
      ∧ (∀ ws, s.surfaces hwnd = some ws →
          ∀ e ∈ events_since (wayland_vulkan_surface_presented env hwnd result s) s,
            is_wl_surface_commit e = true →
            e = Event.wl_surface_commit
              (env.reconfigure (env.ensure_contents ws)).2.wl_surface)
      ∧ ((events_since (wayland_vulkan_surface_presented env hwnd result s) s).filter
          is_reconfigure ≠ []
        → ∃ ws, s.surfaces hwnd = some ws
            ∧ (env.ensure_contents ws).processing.serial ≠ 0
            ∧ (env.ensure_contents ws).processing.processed = true)
      ∧ (s.surfaces hwnd = none →
          events_since (wayland_vulkan_surface_presented env hwnd result s) s
            = [Event.lock_hwnd hwnd false]
          ∧ (wayland_vulkan_surface_presented env hwnd result s).surfaces = s.surfaces
          ∧ (wayland_vulkan_surface_presented env hwnd result s).clients = s.clients) := by
  cases hs : s.surfaces hwnd with
  | none =>
    simp [wayland_vulkan_surface_presented, wayland_surface_lock_hwnd, hs, events_since,
      is_wl_surface_commit, is_reconfigure]
  | some ws =>
    by_cases h1 : (env.ensure_contents ws).processing.serial = 0
    · simp [wayland_vulkan_surface_presented, wayland_surface_lock_hwnd, hs, events_since,
        is_wl_surface_commit, is_reconfigure, wayland_surface_ensure_contents,
        pthread_mutex_unlock, h1]
    · by_cases h2 : (env.ensure_contents ws).processing.processed = true
      · cases h3 : (env.reconfigure (env.ensure_contents ws)).1 <;>
        simp [wayland_vulkan_surface_presented, wayland_surface_lock_hwnd, hs, events_since,
          is_wl_surface_commit, is_reconfigure, wayland_surface_ensure_contents,
          wayland_surface_reconfigure, pthread_mutex_unlock, h1, h2, h3]
      · simp [wayland_vulkan_surface_presented, wayland_surface_lock_hwnd, hs, events_since,
          is_wl_surface_commit, is_reconfigure, wayland_surface_ensure_contents,
          pthread_mutex_unlock, h1, h2]

/-- Witness of C7: window 1 of `state_w1` has a processed configure request with
serial 9 and reconfiguring succeeds, so exactly one commit is issued. -/
theorem presented_commits_witness :
    ((events_since (wayland_vulkan_surface_presented env_ok 1 0 state_w1) state_w1).filter
      is_wl_surface_commit).length = 1 :=
  (presented_commits env_ok 1 0 state_w1).1.mpr ⟨⟨100, ⟨9, true⟩, none⟩, rfl, by decide, rfl, rfl⟩

/-- C8: `WAYLAND_VulkanInit` with a version other than
`WINE_VULKAN_DRIVER_VERSION` returns `STATUS_INVALID_PARAMETER` and changes
nothing (no lookup, both entry-point slots and `*driver_funcs` as before); with
the right version, if one of the two entry points is not resolved it returns
`STATUS_PROCEDURE_NOT_FOUND` and `*driver_funcs` is as before; otherwise it
returns `STATUS_SUCCESS`, both slots hold the resolved addresses and
`*driver_funcs` is the address of `wayland_vulkan_driver_funcs`. -/
theorem vulkan_init_result (driver_version : UINT) (dlsym : String → Option Nat)
    (version : UINT) (s : InitState) :
    (version ≠ driver_version →
        WAYLAND_VulkanInit driver_version dlsym version s = (STATUS_INVALID_PARAMETER, s))
      ∧ (version = driver_version →
          (dlsym "vkCreateWaylandSurfaceKHR" = none
            ∨ dlsym "vkGetPhysicalDeviceWaylandPresentationSupportKHR" = none) →
          (WAYLAND_VulkanInit driver_version dlsym version s).1 = STATUS_PROCEDURE_NOT_FOUND
            ∧ (WAYLAND_VulkanInit driver_version dlsym version s).2.driver_funcs
                = s.driver_funcs)
      ∧ (version = driver_version →
          dlsym "vkCreateWaylandSurfaceKHR" ≠ none →
          dlsym "vkGetPhysicalDeviceWaylandPresentationSupportKHR" ≠ none →
          (WAYLAND_VulkanInit driver_version dlsym version s).1 = STATUS_SUCCESS
            ∧ (WAYLAND_VulkanInit driver_version dlsym version s).2.driver_funcs
                = some wayland_vulkan_driver_funcs
            ∧ (WAYLAND_VulkanInit driver_version dlsym version s).2.pvkCreateWaylandSurfaceKHR
                = dlsym "vkCreateWaylandSurfaceKHR"
            ∧ (WAYLAND_VulkanInit driver_version dlsym version
                s).2.pvkGetPhysicalDeviceWaylandPresentationSupportKHR
                = dlsym "vkGetPhysicalDeviceWaylandPresentationSupportKHR") := by
  refine ⟨?_, ?_, ?_⟩
  · intro hv
    simp [WAYLAND_VulkanInit, hv]
  · intro hv hd
    subst hv
    by_cases h1 : dlsym "vkCreateWaylandSurfaceKHR" = none
    · simp [WAYLAND_VulkanInit, h1]
    · have h2 : dlsym "vkGetPhysicalDeviceWaylandPresentationSupportKHR" = none := by
        rcases hd with h | h
        · exact absurd h h1
        · exact h
      simp [WAYLAND_VulkanInit, h1, h2]
  · intro hv h1 h2
    subst hv
    simp [WAYLAND_VulkanInit, h1, h2]

/-- Witness of C8: version 35 asked of a driver of version 35 whose GPU library
exports both entry points, and version 34 asked of the same driver. -/
theorem vulkan_init_result_witness :
    ((WAYLAND_VulkanInit 35 dlsym_both 35 init_state_empty).1 = STATUS_SUCCESS
        ∧ (WAYLAND_VulkanInit 35 dlsym_both 35 init_state_empty).2.driver_funcs
            = some wayland_vulkan_driver_funcs)
      ∧ WAYLAND_VulkanInit 35 dlsym_both 34 init_state_empty
          = (STATUS_INVALID_PARAMETER, init_state_empty) :=
  ⟨⟨((vulkan_init_result 35 dlsym_both 35 init_state_empty).2.2 rfl (by decide)
        (by decide)).1,
     ((vulkan_init_result 35 dlsym_both 35 init_state_empty).2.2 rfl (by decide)
        (by decide)).2.1⟩,
   (vulkan_init_result 35 dlsym_both 34 init_state_empty).1 (by decide)⟩

/-- C3: when the window has a record and the call through
`pvkCreateWaylandSurfaceKHR` returned a code `res` other than `VK_SUCCESS`,
`wayland_vulkan_surface_create` returns `res`, leaves `*private` as it was, and
releases exactly once the client surface it obtained (the record's one, or the
one newly allocated at `s.next_client`): its reference count after the call is
the count before the call (0 for a client surface that did not exist), and its
compositor object is destroyed, once, iff that count is zero. -/
theorem create_gpu_failure (env : Env) (hwnd : HWND) (inst : VkInstance)
    (surface : VkSurfaceKHR) (priv : Option Nat) (s : State) (ws : wayland_surface)
    (res : VkResult) (info : VkWaylandSurfaceCreateInfoKHR)
    (hs : s.surfaces hwnd = some ws) (hres : res ≠ VK_SUCCESS)
    (hcall : Event.vkCreateWaylandSurfaceKHR inst info res
      ∈ events_since (wayland_vulkan_surface_create env hwnd inst surface priv s).state s) :
    (wayland_vulkan_surface_create env hwnd inst surface priv s).res = res
      ∧ (wayland_vulkan_surface_create env hwnd inst surface priv s).priv = priv
      ∧ ((wayland_vulkan_surface_create env hwnd inst surface priv s).state.clients
            (ws.client.getD s.next_client)).ref
          = (if ws.client = none then 0 else (s.clients (ws.client.getD s.next_client)).ref)
      ∧ (events_since (wayland_vulkan_surface_create env hwnd inst surface priv s).state s).count
            (Event.client_surface_release (ws.client.getD s.next_client)) = 1
      ∧ (events_since (wayland_vulkan_surface_create env hwnd inst surface priv s).state s).count
            (Event.client_surface_destroyed (ws.client.getD s.next_client))
          = (if ((wayland_vulkan_surface_create env hwnd inst surface priv s).state.clients
                  (ws.client.getD s.next_client)).ref = 0 then 1 else 0) := by
  have hlog := get_client_log env hwnd (s.emit (.lock_hwnd hwnd true))
  rcases hg : wayland_surface_get_client env hwnd (s.emit (.lock_hwnd hwnd true))
    with ⟨_ | c, s1⟩
  · rw [hg] at hlog
    simp only [emit_log] at hlog
    simp [create_no_client env hwnd inst surface priv s s1 ws hs hg, events_since, hlog] at hcall
  · rw [hg] at hlog
    simp only [emit_log] at hlog
    by_cases hr : (env.pvkCreateWaylandSurfaceKHR inst
        (create_info_host env (s1.clients c).wl_surface) surface).1 = VK_SUCCESS
    · simp [create_gpu_ok env hwnd inst surface priv s s1 ws c hs hg hr, events_since,
        hlog] at hcall
      exact absurd hcall.2 hres
    · have hmem : ∀ e ∈ destroy_events c ((s1.emit (.mutex_unlock hwnd)).emit
          (.vkCreateWaylandSurfaceKHR inst (create_info_host env (s1.clients c).wl_surface)
            (env.pvkCreateWaylandSurfaceKHR inst (create_info_host env (s1.clients c).wl_surface)
              surface).1)), e ≠ Event.vkCreateWaylandSurfaceKHR inst info res := by
        intro e he heq
        have := List.all_eq_true.mp (destroy_events_not_vk _ _) e he
        rw [heq] at this
        simp [is_vkCreateWaylandSurfaceKHR] at this
      have hres2 : (env.pvkCreateWaylandSurfaceKHR inst
          (create_info_host env (s1.clients c).wl_surface) surface).1 = res := by
        simp only [create_gpu_failed env hwnd inst surface priv s s1 ws c hs hg hr, events_since,
          hlog, destroy_log, emit_log, List.append_assoc, List.drop_left,
          List.mem_append, List.mem_cons, List.mem_singleton, List.mem_nil_iff, or_false,
          List.cons_append, List.nil_append, reduceCtorEq, false_or,
          Event.vkCreateWaylandSurfaceKHR.injEq] at hcall
        rcases hcall with h | h
        · exact h.2.2.symm
        · exact absurd rfl (hmem _ h)
      cases hc : ws.client with
      | some c0 =>
        have hex := get_client_existing env hwnd (s.emit (.lock_hwnd hwnd true)) ws c0
          (by simpa using hs) hc
        rw [hg] at hex
        obtain ⟨hc1, -, -, hcl⟩ := hex
        simp only [Option.some.injEq] at hc1
        subst hc1
        have hcc : s1.clients c = ⟨(s.clients c).ref + 1, (s.clients c).wl_surface⟩ := by
          simpa using hcl c
        have hres3 := hres2
        simp only [hcc] at hres3
        simp [hres3, create_gpu_failed env hwnd inst surface priv s s1 ws c hs hg hr, events_since,
          hlog, destroy_log, destroy_clients, hcc, hres2, destroy_events_count_release,
          destroy_events_count_destroyed, List.count_cons, List.count_append]
      | none =>
        cases hn : env.new_client_surface s.next_client with
        | none =>
          have := get_client_fails env hwnd (s.emit (.lock_hwnd hwnd true)) ws
            (by simpa using hs) hc hn
          rw [hg] at this
          simp at this
        | some id =>
          have hex := get_client_new env hwnd (s.emit (.lock_hwnd hwnd true)) ws id
            (by simpa using hs) hc hn
          rw [hg] at hex
          obtain ⟨hc1, -, -, hcl⟩ := hex
          simp only [Option.some.injEq, emit_next_client] at hc1
          subst hc1
          have hcc : s1.clients s.next_client = ⟨1, ⟨id, hwnd⟩⟩ := by
            simpa using hcl s.next_client
          have hres3 := hres2
          simp only [hcc] at hres3
          simp [hres3, create_gpu_failed env hwnd inst surface priv s s1 ws _ hs hg hr, events_since,
            hlog, destroy_log, destroy_clients, hcc, hres2, destroy_events_count_release,
            destroy_events_count_destroyed, List.count_cons, List.count_append]
/-- Witness of C3: window 1 of `state_w1` has a record without client surface and
the GPU library fails with -3; the client surface allocated at address 10 is
released and destroyed again. -/
theorem create_gpu_failure_witness :
    (wayland_vulkan_surface_create env_gpu_fails 1 7 0 none state_w1).res = -3
      ∧ (wayland_vulkan_surface_create env_gpu_fails 1 7 0 none state_w1).priv = none
      ∧ ((wayland_vulkan_surface_create env_gpu_fails 1 7 0 none state_w1).state.clients 10).ref
          = 0
      ∧ (events_since (wayland_vulkan_surface_create env_gpu_fails 1 7 0 none state_w1).state
            state_w1).count (Event.client_surface_release 10) = 1
      ∧ (events_since (wayland_vulkan_surface_create env_gpu_fails 1 7 0 none state_w1).state
            state_w1).count (Event.client_surface_destroyed 10) = 1 :=
  create_gpu_failure env_gpu_fails 1 7 0 none state_w1 ⟨100, ⟨9, true⟩, none⟩ (-3)
    (create_info_host env_gpu_fails ⟨500, 1⟩) rfl (by decide) (by decide)

/-- C6: end to end.  The record of the window holds no client surface and the
call through `pvkCreateWaylandSurfaceKHR` is made and returns `VK_SUCCESS`.  Then
`wayland_vulkan_surface_create` returns `VK_SUCCESS`, `*private` is the newly
allocated client surface, the record points to that same client surface, and its
reference count is 1.  Destroying this binding afterwards destroys the
compositor object (once), brings the count to 0, leaves the record with a NULL
client pointer, and ends with no record mutex held. -/
theorem create_then_destroy (env : Env) (hwnd : HWND) (inst : VkInstance)
    (surface : VkSurfaceKHR) (priv : Option Nat) (s : State) (ws : wayland_surface)
    (info : VkWaylandSurfaceCreateInfoKHR) (r : CreateResult)
    (hr : r = wayland_vulkan_surface_create env hwnd inst surface priv s)
    (hs : s.surfaces hwnd = some ws) (hc : ws.client = none)
    (hcall : Event.vkCreateWaylandSurfaceKHR inst info VK_SUCCESS ∈ events_since r.state s) :
    r.res = VK_SUCCESS
      ∧ r.priv = some s.next_client
      ∧ r.state.surfaces hwnd = some { ws with client := some s.next_client }
      ∧ (r.state.clients s.next_client).ref = 1
      ∧ held_after [] (events_since r.state s) = []
      ∧ events_since (wayland_vulkan_surface_destroy hwnd s.next_client r.state) r.state
          = [Event.lock_hwnd hwnd true, Event.client_surface_release s.next_client,
              Event.client_surface_destroyed s.next_client, Event.clear_client hwnd,
              Event.mutex_unlock hwnd]
      ∧ ((wayland_vulkan_surface_destroy hwnd s.next_client r.state).clients s.next_client).ref
          = 0
      ∧ (wayland_vulkan_surface_destroy hwnd s.next_client r.state).surfaces hwnd
          = some { ws with client := none }
      ∧ held_after []
          (events_since (wayland_vulkan_surface_destroy hwnd s.next_client r.state) r.state)
          = [] := by
  subst hr
  have hlog := get_client_log env hwnd (s.emit (.lock_hwnd hwnd true))
  rcases hg : wayland_surface_get_client env hwnd (s.emit (.lock_hwnd hwnd true))
    with ⟨o, s1⟩
  rw [hg] at hlog
  simp only [emit_log] at hlog
  cases hn : env.new_client_surface s.next_client with
  | none =>
    have hf := get_client_fails env hwnd (s.emit (.lock_hwnd hwnd true)) ws
      (by simpa using hs) hc hn
    rw [hg] at hf
    simp only [Prod.mk.injEq] at hf
    obtain ⟨ho, -⟩ := hf
    subst ho
    simp [create_no_client env hwnd inst surface priv s s1 ws hs hg, events_since, hlog] at hcall
  | some id =>
    have hex := get_client_new env hwnd (s.emit (.lock_hwnd hwnd true)) ws id
      (by simpa using hs) hc hn
    rw [hg] at hex
    obtain ⟨ho, hsu, -, hcl⟩ := hex
    simp only [emit_next_client] at ho
    subst ho
    have hcc : s1.clients s.next_client = ⟨1, ⟨id, hwnd⟩⟩ := by
      simpa using hcl s.next_client
    have hsh : s1.surfaces hwnd = some { ws with client := some s.next_client } := by
      simpa using hsu hwnd
    by_cases hok : (env.pvkCreateWaylandSurfaceKHR inst
        (create_info_host env (s1.clients s.next_client).wl_surface) surface).1 = VK_SUCCESS
    · simp [create_gpu_ok env hwnd inst surface priv s s1 ws _ hs hg hok, events_since, hlog,
        hcc, hsh, wayland_vulkan_surface_destroy, destroy_log, destroy_events, destroy_clients,
        destroy_surfaces, held_after, held_step]
    · have hmem := List.all_eq_true.mp (destroy_events_not_vk s.next_client
        ((s1.emit (.mutex_unlock hwnd)).emit
          (.vkCreateWaylandSurfaceKHR inst
            (create_info_host env (s1.clients s.next_client).wl_surface)
            (env.pvkCreateWaylandSurfaceKHR inst
              (create_info_host env (s1.clients s.next_client).wl_surface) surface).1)))
      simp only [create_gpu_failed env hwnd inst surface priv s s1 ws _ hs hg hok, events_since,
        hlog, destroy_log, emit_log, List.append_assoc, List.drop_left,
        List.mem_append, List.mem_cons, List.mem_singleton, List.mem_nil_iff, or_false,
        List.cons_append, List.nil_append, reduceCtorEq, false_or,
        Event.vkCreateWaylandSurfaceKHR.injEq] at hcall
      rcases hcall with h | h
      · exact absurd h.2.2.symm hok
      · have := hmem _ h
        simp [is_vkCreateWaylandSurfaceKHR] at this
/-- Witness of C6: window 1 of `state_w1`, whose record holds no client surface,
with a GPU library whose surface creation succeeds. -/
theorem create_then_destroy_witness :
    (wayland_vulkan_surface_create env_ok 1 7 0 none state_w1).res = VK_SUCCESS
      ∧ (wayland_vulkan_surface_create env_ok 1 7 0 none state_w1).priv = some 10
      ∧ (wayland_vulkan_surface_create env_ok 1 7 0 none state_w1).state.surfaces 1
          = some ⟨100, ⟨9, true⟩, some 10⟩
      ∧ ((wayland_vulkan_surface_create env_ok 1 7 0 none state_w1).state.clients 10).ref = 1
      ∧ (wayland_vulkan_surface_destroy 1 10
            (wayland_vulkan_surface_create env_ok 1 7 0 none state_w1).state).surfaces 1
          = some ⟨100, ⟨9, true⟩, none⟩ :=
  have h := create_then_destroy env_ok 1 7 0 none state_w1 ⟨100, ⟨9, true⟩, none⟩
    (create_info_host env_ok ⟨500, 1⟩)
    (wayland_vulkan_surface_create env_ok 1 7 0 none state_w1) rfl rfl rfl (by decide)
  ⟨h.1, h.2.1, h.2.2.1, h.2.2.2.1, h.2.2.2.2.2.2.2.1⟩

/-- C2: take any sequence of surface creations and binding destructions on a
window whose record starts without client surface, every creation successful
and every destruction on a binding alive at that moment.  For every client
surface `c` a binding was created for: its reference count after the sequence is
N - M, where N is the number of creations that returned `c` and M (at most N) the
number of destructions of bindings of `c`; and the number of destructions of its
compositor object during the sequence is 1 if that count is 0 and 0 otherwise,
so never more than 1. -/
theorem refcount_invariant (env : Env) (hwnd : HWND) (s0 : State) (ws : wayland_surface)
    (ops : List SurfaceOp) (hs : s0.surfaces hwnd = some ws) (hc : ws.client = none)
    (hok : (run_ops env hwnd (Run.start s0) ops).ok = true) :
    ∀ c ∈ (run_ops env hwnd (Run.start s0) ops).created,
      ((run_ops env hwnd (Run.start s0) ops).state.clients c).ref
          = ((run_ops env hwnd (Run.start s0) ops).created.count c : Int)
            - ((run_ops env hwnd (Run.start s0) ops).destroyed.count c : Int)
        ∧ (run_ops env hwnd (Run.start s0) ops).destroyed.count c
            ≤ (run_ops env hwnd (Run.start s0) ops).created.count c
        ∧ (events_since (run_ops env hwnd (Run.start s0) ops).state s0).count
              (Event.client_surface_destroyed c)
            = (if ((run_ops env hwnd (Run.start s0) ops).state.clients c).ref = 0 then 1 else 0)
        ∧ (events_since (run_ops env hwnd (Run.start s0) ops).state s0).count
              (Event.client_surface_destroyed c) ≤ 1 := by
  have hinv := run_inv_ops env hwnd s0 ops (Run.start s0) (run_inv_start s0 hwnd ws hs hc) hok
  intro c hcm
  obtain ⟨h1, h2⟩ := hinv.created c hcm
  obtain ⟨tr, htr, hcount⟩ := hinv.log
  obtain ⟨-, hrf⟩ := hinv.clients c h1 h2
  have hcnt := hinv.counts c
  have hev : events_since (run_ops env hwnd (Run.start s0) ops).state s0 = tr := by
    simp [events_since, htr]
  have hd := hcount c h1
  simp only [h2, true_and] at hd
  rw [hev, hd, hrf]
  refine ⟨by omega, by omega, rfl, ?_⟩
  split <;> omega

/-- Witness of C2: two creations for window 1 of `state_w1` followed by the
destruction of both bindings: the client surface at address 10 ends with count
2 - 2 = 0 and its compositor object was destroyed once. -/
theorem refcount_invariant_witness :
    ((run_ops env_ok 1 (Run.start state_w1)
        [.create 7, .create 7, .destroy 10, .destroy 10]).state.clients 10).ref
          = ((run_ops env_ok 1 (Run.start state_w1)
              [.create 7, .create 7, .destroy 10, .destroy 10]).created.count 10 : Int)
            - ((run_ops env_ok 1 (Run.start state_w1)
              [.create 7, .create 7, .destroy 10, .destroy 10]).destroyed.count 10 : Int)
      ∧ (events_since (run_ops env_ok 1 (Run.start state_w1)
            [.create 7, .create 7, .destroy 10, .destroy 10]).state state_w1).count
          (Event.client_surface_destroyed 10) ≤ 1 :=
  have h := refcount_invariant env_ok 1 state_w1 ⟨100, ⟨9, true⟩, none⟩
    [.create 7, .create 7, .destroy 10, .destroy 10] rfl rfl (by decide) 10 (by decide)
  ⟨h.1, h.2.2.2⟩

/-- Counterexample to C9 as stated: in `state_w1` with `env_ok`,
`wayland_vulkan_surface_presented` calls `wl_surface_commit` while the mutex of
the record of window 1 is held, and destroying the binding created for window 1
destroys the compositor object while that mutex is held. -/
theorem locking_discipline_counterexample :
    held_at is_foreign_call []
        (events_since (wayland_vulkan_surface_presented env_ok 1 0 state_w1) state_w1)
        = [[1]]
      ∧ held_at is_foreign_call []
        (events_since
          (wayland_vulkan_surface_destroy 1 10
            (wayland_vulkan_surface_create env_ok 1 7 0 none state_w1).state)
          (wayland_vulkan_surface_create env_ok 1 7 0 none state_w1).state)
        = [[1]]
      ∧ ¬ (∀ held ∈ held_at is_foreign_call []
            (events_since (wayland_vulkan_surface_presented env_ok 1 0 state_w1) state_w1),
          held = []) := by
  decide

/-- C9, amended: the call through `pvkCreateWaylandSurfaceKHR` is never made with
a record mutex held, and `wayland_vulkan_surface_create`,
`wayland_vulkan_surface_destroy` and `wayland_vulkan_surface_presented` each
return with no record mutex held.  `wl_surface_commit` in
`wayland_vulkan_surface_presented` is called with the mutex of the window's
record held, and the compositor object is destroyed inside
`wine_vk_surface_destroy` with the mutex of the record found there held (with
no mutex held when no record is found). -/
theorem locking_discipline (env : Env) (hwnd : HWND) (inst : VkInstance)
    (surface : VkSurfaceKHR) (priv : Option Nat) (result : VkResult) (client : Nat)
    (s : State) :
    (∀ held ∈ held_at is_vkCreateWaylandSurfaceKHR []
        (events_since (wayland_vulkan_surface_create env hwnd inst surface priv s).state s),
        held = [])
      ∧ held_at is_vkCreateWaylandSurfaceKHR []
          (events_since (wayland_vulkan_surface_destroy hwnd client s) s) = []
      ∧ held_at is_vkCreateWaylandSurfaceKHR []
          (events_since (wayland_vulkan_surface_presented env hwnd result s) s) = []
      ∧ held_after []
          (events_since (wayland_vulkan_surface_create env hwnd inst surface priv s).state s)
          = []
      ∧ held_after [] (events_since (wayland_vulkan_surface_destroy hwnd client s) s) = []
      ∧ held_after [] (events_since (wayland_vulkan_surface_presented env hwnd result s) s)
          = []
      ∧ (∀ held ∈ held_at is_wl_surface_commit []
          (events_since (wayland_vulkan_surface_presented env hwnd result s) s),
          held = [hwnd])
      ∧ (∀ held ∈ held_at is_client_surface_destroyed []
          (events_since (wine_vk_surface_destroy client s) s),
          held = if s.surfaces (wine_vk_surface_get_hwnd (s.clients client)) = none then []
            else [wine_vk_surface_get_hwnd (s.clients client)]) := by
  have hde : events_since (wine_vk_surface_destroy client s) s = destroy_events client s := by
    simp [events_since, destroy_log]
  refine ⟨?_, ?_, ?_, ?_, ?_, ?_, ?_, ?_⟩
  · rcases create_events env hwnd inst surface priv s with h | h | ⟨info, res, h⟩ |
      ⟨info, res, c, s2, h⟩ <;> rw [h]
    · simp [held_at, is_vkCreateWaylandSurfaceKHR]
    · simp [held_at, is_vkCreateWaylandSurfaceKHR]
    · simp [held_at, is_vkCreateWaylandSurfaceKHR, held_step]
    · simp [held_at_append, held_at, is_vkCreateWaylandSurfaceKHR, held_step,
        held_at_none _ _ _ (destroy_events_not_vk _ _)]
  · rw [wayland_vulkan_surface_destroy, hde]
    exact held_at_none _ _ _ (destroy_events_not_vk _ _)
  · rcases presented_events env hwnd result s with h | h | h | ⟨surf, h⟩ <;> rw [h] <;> rfl
  · rcases create_events env hwnd inst surface priv s with h | h | ⟨info, res, h⟩ |
      ⟨info, res, c, s2, h⟩ <;> rw [h]
    · rfl
    · simp [held_after, held_step]
    · simp [held_after, held_step]
    · simp [held_after_append, held_after, held_step, destroy_events_held_after]
  · rw [wayland_vulkan_surface_destroy, hde]
    exact destroy_events_held_after _ _
  · rcases presented_events env hwnd result s with h | h | h | ⟨surf, h⟩ <;> rw [h] <;>
      simp [held_after, held_step]
  · rcases presented_events env hwnd result s with h | h | h | ⟨surf, h⟩ <;> rw [h] <;>
      simp [held_at, held_step, is_wl_surface_commit]
  · rw [hde, destroy_events_held_at_destroyed]
    intro held hh
    by_cases hz : (s.clients client).ref - 1 = 0
    · simpa [hz, wine_vk_surface_get_hwnd, wl_surface_get_user_data] using hh
    · simp [hz] at hh

/-- Counterexample to C10 as stated: in `state_record_recreated` the record of
window 1 holds the client surface at address 20, not the binding's (address
10), and `wine_vk_surface_destroy` of the binding clears the record's client
pointer all the same. -/
theorem destroy_clears_other_client_counterexample :
    state_record_recreated.surfaces
        (wine_vk_surface_get_hwnd (state_record_recreated.clients 10))
        = some ⟨100, ⟨0, false⟩, some 20⟩
      ∧ (wine_vk_surface_destroy 10 state_record_recreated).surfaces 1
        = some ⟨100, ⟨0, false⟩, none⟩
      ∧ ((wine_vk_surface_destroy 10 state_record_recreated).clients 20).ref = 1
      ∧ (wine_vk_surface_destroy 10 state_record_recreated).surfaces 1
        ≠ state_record_recreated.surfaces 1 := by
  decide

/-- C10, amended: when the window of the binding's compositor object has a record,
`wine_vk_surface_destroy` changes the record's client pointer only by clearing
it, and clears it exactly when the release brought the binding's reference count
to zero, whichever client surface the record points to; if the count stays
nonzero the pointer is unchanged.  The other members of the record and the
records of other windows are unchanged. -/
theorem destroy_record_client (client : Nat) (s : State) (ws : wayland_surface)
    (hs : s.surfaces (wine_vk_surface_get_hwnd (s.clients client)) = some ws) :
    (wine_vk_surface_destroy client s).surfaces (wine_vk_surface_get_hwnd (s.clients client))
        = some { ws with
            client := if (s.clients client).ref - 1 = 0 then none else ws.client }
      ∧ ∀ h, h ≠ wine_vk_surface_get_hwnd (s.clients client) →
          (wine_vk_surface_destroy client s).surfaces h = s.surfaces h := by
  simp only [wine_vk_surface_get_hwnd, wl_surface_get_user_data] at hs ⊢
  constructor
  · rw [destroy_surfaces]
    by_cases hz : (s.clients client).ref - 1 = 0 <;> simp [hz, hs]
  · intro h hh
    rw [destroy_surfaces]
    simp [hh]

/-- Witness of C10 amended: the binding of address 10 in `state_record_recreated`. -/
theorem destroy_record_client_witness :
    (wine_vk_surface_destroy 10 state_record_recreated).surfaces 1
      = some ⟨100, ⟨0, false⟩, none⟩ :=
  (destroy_record_client 10 state_record_recreated ⟨100, ⟨0, false⟩, some 20⟩ rfl).1

end WaylandVulkan
